import Mathlib

/-!
# hpc-workspace: `ws.cpp`

A shallow embedding of `src/src/ws.cpp` (class `Workspace`: constructor,
`validate`, `allocate`, `release`) and theorems about it.

Conventions of the embedding

* C++ `int`/`long` values are `Int`; the `int` product `duration*24*3600` is
  wrapped to 32 bits (`int32`), as the compiled program computes it.
* Everything the process asks of its surroundings (identity, clock, random
  numbers, success or failure of a system call, Boost path arithmetic, the
  parsed configuration files) is a field of `Env`.
* The record store (files of the database directory) and the directory tree
  (workspace directories) are the two components of `World`; `World` also
  carries the set of raised capabilities and a log of the calls performed.
* `exit(n)` and an uncaught exception end the run with a `Fatal` value.
-/

namespace HpcWorkspace

/-! ## yaml-cpp nodes -/

/-- A parsed YAML document (the content of a defined yaml-cpp `YAML::Node`). A
scalar carries its text, the value of `as<string>()`, and the value of
`as<int>()` when that conversion succeeds. -/
inductive Yaml where
  | null : Yaml
  | scalar (text : String) (int : Option Int) : Yaml
  | seq (items : List Yaml) : Yaml
  | map (entries : List (String × Yaml)) : Yaml

/-- The value of an expression of type `YAML::Node`: a defined node, an
undefined node (what `operator[]` gives for a key that is not there), or no
node at all because evaluating the expression threw. -/
inductive Node where
  | defined (y : Yaml) : Node
  | undefined : Node
  | thrown : Node

/-- The node `node[key]` for a string key on a non-const node: the value of the
key in a map, an undefined node for a missing key and below a null, sequence
or undefined node, and `BadSubscript` thrown below a scalar. -/
def idx : Node → String → Node
  | Node.defined (Yaml.map entries), key =>
    match entries.lookup key with
    | some y => Node.defined y
    | none => Node.undefined
  | Node.defined (Yaml.scalar _ _), _ => Node.thrown
  | Node.defined _, _ => Node.undefined
  | Node.undefined, _ => Node.undefined
  | Node.thrown, _ => Node.thrown

/-- The conversion `node.as<string>()`; `none` when it throws. -/
def as_string : Node → Option String
  | Node.defined (Yaml.scalar text _) => some text
  | _ => none

/-- The conversion `node.as<int>()`; `none` when it throws. -/
def as_int : Node → Option Int
  | Node.defined (Yaml.scalar _ (some i)) => some i
  | _ => none

/-- The conversion `node.as<vector<string> >()`; `none` when it throws (the
node is no sequence, or an element is no scalar). -/
def as_string_vector : Node → Option (List String)
  | Node.defined (Yaml.seq items) => items.mapM (fun item => as_string (Node.defined item))
  | _ => none

/-- The values `v.as<string>()` for the `v` that `BOOST_FOREACH(const YAML::Node &v, node)`
visits, `none` where the conversion throws; the whole is `none` when `node`
itself cannot be evaluated. Iterating a sequence yields its elements.
Iterating a map yields key/value pairs whose `Node` part is not a valid node,
so `as<string>()` throws on each of them. Any other node yields nothing. -/
def iter_as_string : Node → Option (List (Option String))
  | Node.defined (Yaml.seq items) =>
    some (items.map (fun item => as_string (Node.defined item)))
  | Node.defined (Yaml.map entries) => some (entries.map (fun _ => none))
  | Node.thrown => none
  | _ => some []

/-! ## Process surroundings -/

/-- Linux capabilities raised and lowered by `ws.cpp`. -/
inductive Cap where
  | CAP_DAC_OVERRIDE
  | CAP_CHOWN
  deriving DecidableEq, Repr

/-- Causes of failure of `rename(2)`. -/
inductive Errno where
  | EXDEV
  | EACCES
  | EPERM
  | ENOENT
  | ENOTEMPTY
  | EINVAL
  | EISDIR
  deriving DecidableEq, Repr

/-- Modelled from the spec: `ws.h` is missing; the client codes handed to the
constructor, one per action of the command surface (allocate, release). -/
inductive whichclient where
  | WS_Allocate
  | WS_Release
  deriving DecidableEq, Repr

/-- The parsed command line (`po::variables_map`): `opt.count("filesystem")`
is `filesystem.isSome`, `opt["duration"].as<int>()` is `duration`. -/
structure Opt where
  filesystem : Option String
  duration : Int
  deriving DecidableEq, Repr

/-- An entry of the group database (`struct group`): id, name and the users
listed as members. -/
structure Group where
  gid : Nat
  name : String
  members : List String
  deriving DecidableEq, Repr

/-- What the process reads from its surroundings. -/
structure Env where
  /-- Result of `getuid()`. -/
  uid : Nat
  /-- Result of `getgid()`. -/
  gid : Nat
  /-- Result of `getusername()`. -/
  username : String
  /-- The group database that `getgrouplist` and `getgrgid` read. -/
  group_db : List Group
  /-- Result of `YAML::LoadFile("/etc/ws.conf")`, `none` for `BadFile`. -/
  etc_ws_conf : Option Yaml
  /-- Result of `YAML::LoadFile("ws_private.conf")`, `none` for `BadFile`. -/
  ws_private_conf : Option Yaml
  /-- Value of the n-th call of `time(NULL)`. -/
  clock : Nat → Int
  /-- Value of `rand()` right after `srand(seed)`. -/
  rand : Int → Nat
  /-- Value the Lua function of the area returns, when the build has
  `LUACALLOUTS`, the area configures a callout and the script loads. -/
  prefix_callout : Option String
  /-- Whether `access(path, R_OK|W_OK|X_OK)` returns 0. -/
  access_rwx : String → Bool
  /-- Whether `fs::create_directories(path)` returns without throwing. -/
  create_directories_ok : String → Bool
  /-- Whether `chown(path, ..)` returns 0. -/
  chown_ok : String → Bool
  /-- Whether `chmod(path, ..)` returns 0. -/
  chmod_ok : String → Bool
  /-- Cause for which `rename(src, dst)` fails, `none` when nothing outside
  the modelled state prevents it. -/
  rename_errno : String → String → Option Errno
  /-- Return value of `mv(src, dst)`. -/
  mv_result : String → String → Int
  /-- Value of `fs::path(p).parent_path().string()`. -/
  parent_path : String → String
  /-- Effective user id, the owner of a directory the process creates. -/
  euid : Nat
  /-- Effective group id, the group of a directory the process creates. -/
  egid : Nat

/-- How a run ends other than by returning. -/
inductive Fatal where
  /-- A call of `exit(status)` after printing `message`. -/
  | exit (status : Int) (message : String)
  /-- An exception nobody catches. -/
  | uncaught
  /-- Integer division by zero. -/
  | sigfpe
  /-- A null pointer dereferenced. -/
  | sigsegv
  deriving DecidableEq, Repr

/-- The result of `getgrgid(gid)`: the name of the first entry of the group
database with that id, `none` for a null pointer. -/
def getgrgid (env : Env) (gid : Nat) : Option String :=
  (env.group_db.find? (fun g => g.gid = gid)).map (fun g => g.name)

/-- The ids `getgrouplist(user, group, ..)` finds: `group` itself, then the ids
of the entries of the group database that list `user` as a member. -/
def getgrouplist (env : Env) (user : String) (group : Nat) : List Nat :=
  (group :: (env.group_db.filter (fun g => g.members.contains user)).map
    (fun g => g.gid)).eraseDups

/-- Lines 284-298 of `validate`: the vector `groupnames`. The call is
`getgrouplist(username, geteuid(), gids, &ngroups)` with room for 128 ids;
with more ids it returns -1 and the loop does not run; an id without an entry
in the group database is skipped. -/
def groupnames (env : Env) (username : String) : List String :=
  let gids := getgrouplist env username env.euid
  if gids.length ≤ 128 then gids.filterMap (fun gid => getgrgid env gid) else []

/-- The value a 32-bit `int` holds when the exact result of an operation is
`x`: signed overflow wraps in two's complement. -/
def int32 (x : Int) : Int := (x + 2147483648) % 4294967296 - 2147483648

/-- The value of the `int` expression `duration*24*3600` of lines 143 and
202. -/
def duration_seconds (duration : Int) : Int := int32 (int32 (duration * 24) * 3600)

/-! ## Record store, directory tree, capabilities -/

/-- Content of a database entry, the fields `write_dbfile` stores and
`read_dbfile` gives back. -/
structure Record where
  wsdir : String
  expiration : Int
  extensions : Int
  acctcode : String
  reminder : Int
  mailaddress : String
  deriving DecidableEq, Repr

/-- A file of the database directory: its content and its owner. -/
structure DbFile where
  record : Record
  uid : Int
  gid : Int
  deriving DecidableEq, Repr

/-- Owner, group and permission bits of a directory. -/
structure DirMeta where
  uid : Nat
  gid : Nat
  mode : Nat
  deriving DecidableEq, Repr

/-- The calls that change the surroundings, as the log records them. -/
inductive Event where
  | raise_cap (cap : Cap)
  | lower_cap (cap : Cap) (uid : Int)
  | write_dbfile (path : String) (record : Record) (uid gid : Int)
  | create_directories (path : String) (ok : Bool)
  | chown (path : String) (uid gid : Nat) (ok : Bool)
  | chmod (path : String) (mode : Nat) (ok : Bool)
  | unlink (path : String) (ok : Bool)
  | rename (src dst : String) (err : Option Errno)
  | mv (src dst : String) (r : Int)
  deriving DecidableEq, Repr

/-- State outside the process: the files of the database directories, the
workspace directories, the capabilities in effect, the number of calls of
`time` so far, and the log of calls. -/
structure World where
  db : List (String × DbFile)
  dirs : List (String × DirMeta)
  raised : List Cap
  ticks : Nat
  log : List Event
  deriving DecidableEq, Repr

/-- Remove the entry of `path`. -/
def del {α : Type} (m : List (String × α)) (path : String) : List (String × α) :=
  m.filter (fun e => e.1 != path)

/-- Set the entry of `path`. -/
def put {α : Type} (m : List (String × α)) (path : String) (a : α) : List (String × α) :=
  (path, a) :: del m path

/-- Permission bits of `sys/stat.h`. -/
def S_IRUSR : Nat := 0o400
/-- Permission bit: owner may write. -/
def S_IWUSR : Nat := 0o200
/-- Permission bit: owner may search. -/
def S_IXUSR : Nat := 0o100

/-- Modelled from the spec: `ws_util.cpp` is missing; `raise_cap(cap)` puts one
capability into the set of raised capabilities. -/
def raise_cap (cap : Cap) (w : World) : World :=
  { w with raised := if cap ∈ w.raised then w.raised else cap :: w.raised,
           log := w.log ++ [Event.raise_cap cap] }

/-- Modelled from the spec: `ws_util.cpp` is missing; `lower_cap(cap, uid)`
takes one capability out of the set of raised capabilities. -/
def lower_cap (cap : Cap) (uid : Int) (w : World) : World :=
  { w with raised := w.raised.filter (fun c => c ≠ cap),
           log := w.log ++ [Event.lower_cap cap uid] }

/-- Modelled from the spec: `ws_util.cpp` is missing; `drop_cap(cap1, cap2, uid)`
lowers the capabilities to the minimum, none raised. -/
def drop_cap (_cap1 _cap2 : Cap) (_uid : Int) (w : World) : World :=
  { w with raised := [] }

/-- The value of `time(NULL)` in state `w`. -/
def now (env : Env) (w : World) : Int := env.clock w.ticks

/-- The state after one call of `time(NULL)`. -/
def tick (w : World) : World := { w with ticks := w.ticks + 1 }

/-- The test `fs::exists(path)` on a path of the database directory. -/
def fs_exists (w : World) (path : String) : Bool := (w.db.lookup path).isSome

/-- Modelled from the spec: `ws_util.cpp` is missing; `read_dbfile` gives back
the fields `write_dbfile` stored in the entry (directory, expiration,
remaining extensions, accounting code). -/
abbrev read_dbfile (file : DbFile) : Record := file.record

/-- Modelled from the spec: `ws_util.cpp` is missing; `write_dbfile` stores the
record at `path`, the file owned by the database account. -/
def write_dbfile (path : String) (record : Record) (uid gid : Int) (w : World) : World :=
  { w with db := put w.db path { record := record, uid := uid, gid := gid },
           log := w.log ++ [Event.write_dbfile path record uid gid] }

/-- The state after a `fs::create_directories(path)` that does not throw: an
existing directory is left as it is, a new one belongs to the effective user
with the bits the umask 0002 leaves. -/
def create_directories (env : Env) (path : String) (w : World) : World :=
  { w with dirs := if (w.dirs.lookup path).isSome then w.dirs
                   else put w.dirs path { uid := env.euid, gid := env.egid, mode := 0o775 },
           log := w.log ++ [Event.create_directories path true] }

/-- Whether `chown(path, ..)` returns 0: the directory is there and nothing
else prevents it. -/
def chown_succeeds (env : Env) (w : World) (path : String) : Bool :=
  env.chown_ok path && (w.dirs.lookup path).isSome

/-- The state after `chown(path, uid, gid)`. -/
def chown (env : Env) (path : String) (uid gid : Nat) (w : World) : World :=
  { w with dirs := match w.dirs.lookup path with
                   | some d => if env.chown_ok path then put w.dirs path { d with uid := uid, gid := gid }
                               else w.dirs
                   | none => w.dirs,
           log := w.log ++ [Event.chown path uid gid (chown_succeeds env w path)] }

/-- Whether `chmod(path, ..)` returns 0. -/
def chmod_succeeds (env : Env) (w : World) (path : String) : Bool :=
  env.chmod_ok path && (w.dirs.lookup path).isSome

/-- The state after `chmod(path, mode)`. -/
def chmod (env : Env) (path : String) (mode : Nat) (w : World) : World :=
  { w with dirs := match w.dirs.lookup path with
                   | some d => if env.chmod_ok path then put w.dirs path { d with mode := mode }
                               else w.dirs
                   | none => w.dirs,
           log := w.log ++ [Event.chmod path mode (chmod_succeeds env w path)] }

/-- The state after `unlink(path)` on a path of the directory tree:
`unlink(2)` removes no directory (it fails with `EISDIR`, or with `ENOENT`
when nothing is there), so only the log changes. -/
def unlink (path : String) (w : World) : World :=
  { w with log := w.log ++ [Event.unlink path false] }

/-- The cause for which `rename(src, dst)` fails on the store `m`, `none` when
it succeeds: the cause the surroundings give, else `ENOENT` when `src` is not
there. -/
def rename_error {α : Type} (env : Env) (m : List (String × α)) (src dst : String) :
    Option Errno :=
  match env.rename_errno src dst with
  | some e => some e
  | none => if (m.lookup src).isSome then none else some Errno.ENOENT

/-- The store after `rename(src, dst)`: on success the entry of `src` is at
`dst` (and nothing changes when both are the same path). -/
def renamed {α : Type} (env : Env) (m : List (String × α)) (src dst : String) :
    List (String × α) :=
  match rename_error env m src dst, m.lookup src with
  | none, some a => if src = dst then m else put (del m src) dst a
  | _, _ => m

/-- The state after `rename(src, dst)` on a file of the database directory. -/
def rename_db (env : Env) (src dst : String) (w : World) : World :=
  { w with db := renamed env w.db src dst,
           log := w.log ++ [Event.rename src dst (rename_error env w.db src dst)] }

/-- The state after `rename(src, dst)` on a workspace directory. -/
def rename_dir (env : Env) (src dst : String) (w : World) : World :=
  { w with dirs := renamed env w.dirs src dst,
           log := w.log ++ [Event.rename src dst (rename_error env w.dirs src dst)] }

/-- Modelled from the spec: `ws_util.cpp` is missing; the return value of
`mv(src, dst)`, the recursive copy-then-remove move: non-zero when there is
nothing at `src`, else what the surroundings give. -/
def mv_result (env : Env) (w : World) (src dst : String) : Int :=
  if (w.dirs.lookup src).isSome then env.mv_result src dst else -1

/-- Modelled from the spec: `ws_util.cpp` is missing; the state after
`mv(src, dst)`: when it returns 0 the directory is at `dst` and no longer at
`src`; a failed move is taken to leave the tree as it was. -/
def mv (env : Env) (src dst : String) (w : World) : World :=
  { w with dirs := match w.dirs.lookup src with
                   | some d => if env.mv_result src dst = 0 then
                                 (if src = dst then w.dirs else put (del w.dirs src) dst d)
                               else w.dirs
                   | none => w.dirs,
           log := w.log ++ [Event.mv src dst (mv_result env w src dst)] }

/-! ## The class `Workspace` -/

/-- Data members of the class `Workspace`. -/
structure Workspace where
  config : Yaml
  userconfig : Yaml
  opt : Opt
  duration : Int
  filesystem : String
  maxextensions : Int
  acctcode : String
  username : String
  db_uid : Int
  db_gid : Int

/-- The ACL test of `validate` (lines 321-331): `userok` after the three
updates. -/
def userok (user_acl group_acl : List String) (username : String)
    (groupnames : List String) : Bool :=
  let userok0 : Bool := true
  let userok1 : Bool :=
    if user_acl.length > 0 ∨ group_acl.length > 0 then false else userok0
  let userok2 : Bool :=
    if groupnames.any (fun grp => group_acl.contains grp) then true else userok1
  let userok3 : Bool := if user_acl.contains username then true else userok2
  userok3

/-- The list a `try { BOOST_FOREACH(string v, node.as<vector<string> >()) acl.push_back(v); } catch (...) {}`
block leaves in `acl`. -/
def read_acl (config : Yaml) (filesystem key : String) : List String :=
  match as_string_vector (idx (idx (idx (Node.defined config) "workspaces") filesystem) key) with
  | some vs => vs
  | none => []

/-- One `try` block of the loop of lines 340-349 for the visited node `v` and
one of the keys `groupdefault`, `userdefault`: the map `defaults` after it,
an association list whose first entry for a key is the last one assigned.
An exception in the block (from `v.as<string>()`, from a lookup, or from the
conversion to a vector) leaves the map as it was. -/
def collect_defaults (config : Yaml) (key : String) (defaults : List (String × String))
    (v : Option String) : List (String × String) :=
  match v with
  | none => defaults
  | some area =>
    match as_string_vector (idx (idx (idx (Node.defined config) "workspaces.") area) key) with
    | none => defaults
    | some us => us.foldl (fun m u => (u, area) :: m) defaults

/-- The `std::map<string,string>` that the loop of lines 340-349 fills for one
of the keys `groupdefault`, `userdefault`; `none` when the loop header throws. -/
def read_defaults (config : Yaml) (key : String) : Option (List (String × String)) :=
  (iter_as_string (idx (Node.defined config) "workspaces")).map (fun vs =>
    vs.foldl (collect_defaults config key) [])

/-- The storage area lines 338-365 select when none is requested; `none` when
an exception escapes (from the loop header, or from
`config["default"].as<string>()`). -/
def default_filesystem (config : Yaml) (username primarygroup : String)
    (groupnames : List String) : Option String :=
  match read_defaults config "groupdefault", read_defaults config "userdefault" with
  | some groups_defaults, some user_defaults =>
    match user_defaults.lookup username with
    | some area => some area
    | none =>
      match groups_defaults.lookup primarygroup with
      | some area => some area
      | none =>
        match groupnames.findSome? (fun grp => groups_defaults.lookup grp) with
        | some area => some area
        | none => as_string (idx (Node.defined config) "default")
  | _, _ => none

/-- The override chain of lines 372-380 and 390-398 for `key` (`duration` or
`maxextensions`): the per-user exception of the area when that node is
defined, else the value of the area when that node is defined, else the
global value; `none` when a lookup or the chosen `as<int>()` throws. -/
def resolve_limit (config userconfig : Yaml) (filesystem username key : String) :
    Option Int :=
  match idx (idx (idx (idx (idx (Node.defined userconfig) "workspaces") filesystem)
      "userexceptions") username) key with
  | Node.thrown => none
  | Node.defined y => as_int (Node.defined y)
  | Node.undefined =>
    match idx (idx (idx (Node.defined config) "workspaces") filesystem) key with
    | Node.thrown => none
    | Node.defined y => as_int (Node.defined y)
    | Node.undefined => as_int (idx (Node.defined config) key)

/-- Lines 283-367 of `validate`: the group names of the caller, then the check
of a requested storage area against its ACLs, or the choice of a default
area. -/
def select_filesystem (env : Env) (ws : Workspace) : Except Fatal Workspace :=
  let groupnames := groupnames env ws.username
  -- line 300 dereferences the result of `getgrgid(getegid())` unchecked
  match getgrgid env env.egid with
  | none => Except.error Fatal.sigsegv
  | some primarygroup =>
    -- the reference parameter `primarygroup` is bound to the member `acctcode`
    let ws := { ws with acctcode := primarygroup }
    match ws.opt.filesystem with
    | some requested =>
      let user_acl := read_acl ws.config requested "user_acl"
      let group_acl := read_acl ws.config requested "group_acl"
      if userok user_acl group_acl ws.username groupnames then Except.ok ws
      else Except.error
        (Fatal.exit 4 "Error: You are not allowed to use the specified workspace!")
    | none =>
      match default_filesystem ws.config ws.username ws.acctcode groupnames with
      | some area => Except.ok { ws with filesystem := area }
      | none => Except.error Fatal.uncaught

/-- Lines 369-399 of `validate`: the duration cap and the number of
extensions, for the allocate client only. -/
def resolve_limits (env : Env) (wc : whichclient) (ws : Workspace) : Except Fatal Workspace :=
  if wc = whichclient.WS_Allocate then
    match resolve_limit ws.config ws.userconfig ws.filesystem ws.username "duration" with
    | none => Except.error Fatal.uncaught
    | some configduration =>
      let duration :=
        if env.uid ≠ 0 ∧ ws.opt.duration > configduration then configduration
        else ws.duration
      match resolve_limit ws.config ws.userconfig ws.filesystem ws.username
          "maxextensions" with
      | none => Except.error Fatal.uncaught
      | some maxextensions =>
        Except.ok { ws with duration := duration, maxextensions := maxextensions }
  else Except.ok ws

/-- The member function `Workspace::validate`: the object after the call, or
the way the run ends. -/
def Workspace.validate (env : Env) (wc : whichclient) (ws : Workspace) :
    Except Fatal Workspace :=
  match select_filesystem env ws with
  | Except.error e => Except.error e
  | Except.ok ws => resolve_limits env wc ws

/-- The constructor `Workspace::Workspace`. The member `maxextensions` is not
initialised before `validate` runs; `maxextensions0` is the value it happens
to hold. -/
def Workspace.construct (env : Env) (clientcode : whichclient) (_opt : Opt)
    (_duration : Int) (_filesystem : String) (maxextensions0 : Int) (w : World) :
    World × Except Fatal Workspace :=
  match env.etc_ws_conf with
  | none => (w, Except.error (Fatal.exit (-1) "Error: no config file!"))
  | some config =>
    match as_int (idx (Node.defined config) "dbuid") with
    | none => (w, Except.error Fatal.uncaught)
    | some db_uid =>
      match as_int (idx (Node.defined config) "dbgid") with
      | none => (w, Except.error Fatal.uncaught)
      | some db_gid =>
        let w := drop_cap Cap.CAP_DAC_OVERRIDE Cap.CAP_CHOWN db_uid w
        let w := raise_cap Cap.CAP_DAC_OVERRIDE w
        let w := raise_cap Cap.CAP_DAC_OVERRIDE w
        let userconfig : Yaml :=
          match env.ws_private_conf with
          | some u => u
          | none => Yaml.null
        let w := lower_cap Cap.CAP_DAC_OVERRIDE db_uid w
        let ws : Workspace :=
          { config := config, userconfig := userconfig, opt := _opt,
            duration := _duration, filesystem := _filesystem,
            maxextensions := maxextensions0, acctcode := "",
            username := env.username, db_uid := db_uid, db_gid := db_gid }
        (w, Workspace.validate env clientcode ws)

/-- What `allocate` prints: the directory on `cout`, the remaining extensions
and the remaining days on `cerr`. -/
structure Output where
  wsdir : String
  extension : Int
  days : Int
  deriving DecidableEq, Repr

/-- Lines 205-207 of `allocate`: the three output lines, with one more call of
`time`. -/
def report (env : Env) (wsdir : String) (extension expiration : Int) (w : World) :
    World × Except Fatal Output :=
  (tick w, Except.ok { wsdir := wsdir, extension := extension,
                       days := (expiration - now env w).tdiv (24 * 3600) })

/-- The value of the local `prefix` of `allocate` (lines 153-166): empty, or
a slash and what the callout returned. -/
def prefix_of (env : Env) : String :=
  match env.prefix_callout with
  | some p => "/" ++ p
  | none => ""

/-- Lines 172-203 of `allocate`: the three creation steps on the chosen
directory `wsdir`, then the database entry. -/
def make_workspace (env : Env) (ws : Workspace) (wsdir : String) (reminder : Int)
    (mailaddress : String) (dbfilename : String) (w : World) :
    World × Except Fatal Output :=
  let w := raise_cap Cap.CAP_DAC_OVERRIDE w
  if env.create_directories_ok wsdir = false then
    let w := { w with log := w.log ++ [Event.create_directories wsdir false] }
    let w := lower_cap Cap.CAP_DAC_OVERRIDE ws.db_uid w
    (w, Except.error (Fatal.exit (-1) "Error: could not create workspace directory!"))
  else
    let w := create_directories env wsdir w
    let w := lower_cap Cap.CAP_DAC_OVERRIDE ws.db_uid w
    let w := raise_cap Cap.CAP_CHOWN w
    if chown_succeeds env w wsdir = false then
      let w := chown env wsdir env.uid env.gid w
      let w := lower_cap Cap.CAP_CHOWN ws.db_uid w
      let w := unlink wsdir w
      (w, Except.error (Fatal.exit (-1) "Error: could not change owner of workspace!"))
    else
      let w := chown env wsdir env.uid env.gid w
      let w := lower_cap Cap.CAP_CHOWN ws.db_uid w
      let w := raise_cap Cap.CAP_DAC_OVERRIDE w
      if chmod_succeeds env w wsdir = false then
        let w := chmod env wsdir (S_IRUSR ||| S_IWUSR ||| S_IXUSR) w
        let w := lower_cap Cap.CAP_DAC_OVERRIDE ws.db_uid w
        let w := unlink wsdir w
        (w, Except.error
          (Fatal.exit (-1) "Error: could not change permissions of workspace!"))
      else
        let w := chmod env wsdir (S_IRUSR ||| S_IWUSR ||| S_IXUSR) w
        let w := lower_cap Cap.CAP_DAC_OVERRIDE ws.db_uid w
        let extension := ws.maxextensions
        let expiration := now env w + duration_seconds ws.duration
        let w := tick w
        -- the local `acctcode` of `allocate` is an empty string here
        let w := write_dbfile dbfilename
          { wsdir := wsdir, expiration := expiration, extensions := extension,
            acctcode := "", reminder := reminder, mailaddress := mailaddress }
          ws.db_uid ws.db_gid w
        report env wsdir extension expiration w

/-- Lines 149-203 of `allocate`, the creation of a workspace whose database
entry `dbfilename` does not exist: the choice of the directory among the
spaces of the area, then `make_workspace`. -/
def create_workspace (env : Env) (ws : Workspace) (name : String) (reminder : Int)
    (mailaddress : String) (dbfilename : String) (w : World) :
    World × Except Fatal Output :=
  match as_string_vector
      (idx (idx (idx (Node.defined ws.config) "workspaces") ws.filesystem) "spaces") with
  | none => (w, Except.error Fatal.uncaught)
  | some spaces =>
    let prefix_ : String := prefix_of env
    let seed := now env w
    let w := tick w
    if h : spaces.length = 0 then (w, Except.error Fatal.sigfpe)
    else
      let wsdir := spaces.get ⟨env.rand seed % spaces.length,
          Nat.mod_lt _ (Nat.pos_of_ne_zero h)⟩ ++ prefix_ ++ "/" ++ ws.username ++ "-" ++ name
      make_workspace env ws wsdir reminder mailaddress dbfilename w

/-- Lines 125-147 of `allocate`, the reuse or extension of the workspace whose
database entry `dbfilename` holds `file`. -/
def reuse_workspace (env : Env) (ws : Workspace) (extensionflag : Bool) (reminder : Int)
    (mailaddress : String) (user_option : String) (dbfilename : String) (file : DbFile)
    (w : World) : World × Except Fatal Output :=
  let wsdir := (read_dbfile file).wsdir
  let expiration := (read_dbfile file).expiration
  let extension := (read_dbfile file).extensions
  let acctcode := (read_dbfile file).acctcode
  if extensionflag then
    if (user_option.length > 0 ∧ user_option ≠ ws.username ∧ env.uid ≠ 0) ∧
        env.access_rwx wsdir = false then
      (w, Except.error (Fatal.exit (-1)
        "Info: and you have no permissions to access the workspace, workspace will not be extended."))
    else
      let extension := if env.uid ≠ 0 then extension - 1 else extension
      if extension < 0 then
        (w, Except.error (Fatal.exit (-1) "Error: no more extensions."))
      else
        let expiration := now env w + duration_seconds ws.duration
        let w := tick w
        let w := write_dbfile dbfilename
          { wsdir := wsdir, expiration := expiration, extensions := extension,
            acctcode := acctcode, reminder := reminder, mailaddress := mailaddress }
          ws.db_uid ws.db_gid w
        report env wsdir extension expiration w
  else
    report env wsdir extension expiration w

/-- The member function `Workspace::allocate`: the state after the call, and
the output or the way the run ends. -/
def Workspace.allocate (env : Env) (ws : Workspace) (name : String) (extensionflag : Bool)
    (reminder : Int) (mailaddress : String) (user_option : String) (w : World) :
    World × Except Fatal Output :=
  match as_string (idx (idx (idx (Node.defined ws.config) "workspaces") ws.filesystem) "database") with
  | none => (w, Except.error Fatal.uncaught)
  | some database =>
    let dbfilename :=
      if extensionflag = true ∧ user_option.length > 0 then
        database ++ "/" ++ user_option ++ "-" ++ name
      else database ++ "/" ++ ws.username ++ "-" ++ name
    if (extensionflag = true ∧ user_option.length > 0) ∧ fs_exists w dbfilename = false then
      (w, Except.error
        (Fatal.exit (-1) "Error: workspace does not exist, can not be extended!"))
    else
      match w.db.lookup dbfilename with
      | some file =>
        reuse_workspace env ws extensionflag reminder mailaddress user_option dbfilename file w
      | none => create_workspace env ws name reminder mailaddress dbfilename w

/-- The member function `Workspace::release`: the state after the call, and
whether it returned or how the run ends. -/
def Workspace.release (env : Env) (ws : Workspace) (name : String) (w : World) :
    World × Except Fatal Unit :=
  match as_string (idx (idx (idx (Node.defined ws.config) "workspaces") ws.filesystem) "database") with
  | none => (w, Except.error Fatal.uncaught)
  | some database =>
    let dbfilename := database ++ "/" ++ ws.username ++ "-" ++ name
    match w.db.lookup dbfilename with
    | none => (w, Except.error (Fatal.exit (-1) "Error: workspace does not exist!"))
    | some file =>
      let wsdir := (read_dbfile file).wsdir
      let timestamp := toString (now env w)
      let w := tick w
      match as_string (idx (idx (idx (Node.defined ws.config) "workspaces") ws.filesystem) "deleted"),
          as_int (idx (Node.defined ws.config) "dbuid") with
      | none, _ => (w, Except.error Fatal.uncaught)
      | some deleted, dbuid? =>
        let dbtargetname := env.parent_path dbfilename ++ "/" ++ deleted ++ "/" ++
          ws.username ++ "-" ++ name ++ "-" ++ timestamp
        let w := raise_cap Cap.CAP_DAC_OVERRIDE w
        let failed := (rename_error env w.db dbfilename dbtargetname).isSome
        let w := rename_db env dbfilename dbtargetname w
        match dbuid? with
        | none => (w, Except.error Fatal.uncaught)
        | some dbuid =>
          if failed then
            let w := lower_cap Cap.CAP_DAC_OVERRIDE dbuid w
            (w, Except.error (Fatal.exit (-1) "Error: database entry could not be deleted."))
          else
            let w := lower_cap Cap.CAP_DAC_OVERRIDE dbuid w
            let wstargetname := env.parent_path wsdir ++ "/" ++ deleted ++ "/" ++
              ws.username ++ "-" ++ name ++ "-" ++ timestamp
            let w := raise_cap Cap.CAP_DAC_OVERRIDE w
            if (rename_error env w.dirs wsdir wstargetname).isSome then
              let w := rename_dir env wsdir wstargetname w
              let r := mv_result env w wsdir wstargetname
              let w := mv env wsdir wstargetname w
              if r ≠ 0 then
                let w := lower_cap Cap.CAP_DAC_OVERRIDE dbuid w
                (w, Except.error (Fatal.exit (-1) "Error: could not remove workspace!"))
              else
                let w := lower_cap Cap.CAP_DAC_OVERRIDE dbuid w
                (w, Except.ok ())
            else
              let w := rename_dir env wsdir wstargetname w
              let w := lower_cap Cap.CAP_DAC_OVERRIDE dbuid w
              (w, Except.ok ())

/-! ## Reading the log -/

/-- The calls logged between state `w` and the later state `w1`. -/
def events_since (w w1 : World) : List Event := w1.log.drop w.log.length

/-- A `fs::create_directories` that did not throw. -/
def created : Event → Bool
  | Event.create_directories _ true => true
  | _ => false

/-- A `chown` that returned 0. -/
def chowned : Event → Bool
  | Event.chown _ _ _ true => true
  | _ => false

/-- A `chmod` that returned 0. -/
def chmoded : Event → Bool
  | Event.chmod _ _ true => true
  | _ => false

/-- A call of `write_dbfile`. -/
def written : Event → Bool
  | Event.write_dbfile _ _ _ _ => true
  | _ => false

/-- A call of `mv`. -/
def moved : Event → Bool
  | Event.mv _ _ _ => true
  | _ => false

/-! ## A sample installation

The configuration of the scenario of the specification: area `scratch` with
the spaces `/data/a` and `/data/b`, 30 days, 2 extensions, and a second area
`home` that is the global default. -/

/-- A scalar node holding text. -/
def str (text : String) : Yaml := Yaml.scalar text none

/-- A scalar node holding a number. -/
def num (i : Int) : Yaml := Yaml.scalar (toString i) (some i)

/-- The sample `/etc/ws.conf`. -/
def sample_config : Yaml :=
  Yaml.map [
    ("dbuid", num 85), ("dbgid", num 85), ("default", str "home"),
    ("duration", num 10), ("maxextensions", num 1),
    ("workspaces", Yaml.map [
      ("scratch", Yaml.map [
        ("database", str "/db/scratch"), ("deleted", str ".removed"),
        ("spaces", Yaml.seq [str "/data/a", str "/data/b"]),
        ("duration", num 30), ("maxextensions", num 2),
        ("user_acl", Yaml.seq [str "carol"]),
        ("group_acl", Yaml.seq [str "hpc"]),
        ("userdefault", Yaml.seq [str "alice"]),
        ("groupdefault", Yaml.seq [str "users"])]),
      ("home", Yaml.map [
        ("database", str "/db/home"), ("deleted", str ".removed"),
        ("spaces", Yaml.seq [str "/home/ws"])])])]

/-- The last path component removed, a stand-in for `parent_path` on the
paths of the sample. -/
def dirname (p : String) : String :=
  String.mk (((p.data.reverse.dropWhile (fun c => c != '/')).drop 1).reverse)

/-- The surroundings of user `alice` (uid 1000, primary group `users` with id
100, listed as a member of `hpc`):
every system call succeeds, the clock shows 1700000000 and `rand` gives 7. -/
def sample_env : Env :=
  { uid := 1000, gid := 100, username := "alice",
    group_db := [{ gid := 100, name := "users", members := [] },
                 { gid := 200, name := "hpc", members := ["alice"] }],
    etc_ws_conf := some sample_config, ws_private_conf := none,
    clock := fun _ => 1700000000, rand := fun _ => 7, prefix_callout := none,
    access_rwx := fun _ => true, create_directories_ok := fun _ => true,
    chown_ok := fun _ => true, chmod_ok := fun _ => true,
    rename_errno := fun _ _ => none, mv_result := fun _ _ => 0,
    parent_path := dirname, euid := 1000, egid := 100 }

/-- The object the constructor builds for `alice` on area `scratch` with 30
days requested, before `validate` runs. -/
def sample_ws (filesystem : Option String) (duration : Int) : Workspace :=
  { config := sample_config, userconfig := Yaml.null,
    opt := { filesystem := filesystem, duration := duration },
    duration := duration, filesystem := "scratch", maxextensions := 0, acctcode := "",
    username := "alice", db_uid := 85, db_gid := 85 }

/-- The object `validate` leaves for `alice` requesting area `scratch` for 30
days: the group `hpc` opens the area, the limits are those of the area. -/
def sample_valid_ws : Workspace :=
  { sample_ws (some "scratch") 30 with acctcode := "users", maxextensions := 2 }

/-- The state before anything is allocated. -/
def empty_world : World := { db := [], dirs := [], raised := [], ticks := 0, log := [] }

/-- The database entry of the workspace `proj1` of `alice` with `k` extensions
left. -/
def sample_file (k : Int) : DbFile :=
  { record := { wsdir := "/data/b/alice-proj1", expiration := 1700000000, extensions := k,
                acctcode := "p123", reminder := 0, mailaddress := "" },
    uid := 85, gid := 85 }

/-- The state in which `alice` holds the workspace `proj1` with `k` extensions
left. -/
def sample_world (k : Int) : World :=
  { db := [("/db/scratch/alice-proj1", sample_file k)],
    dirs := [("/data/b/alice-proj1", { uid := 1000, gid := 100, mode := 0o700 })],
    raised := [], ticks := 0, log := [] }

/-- The surroundings of user `bob` (uid 1001), who has no access to the
directories of `alice`. -/
def bob_env : Env :=
  { sample_env with uid := 1001, euid := 1001, username := "bob", access_rwx := fun _ => false }

/-- The object of a run of `bob` on area `scratch`. -/
def bob_ws : Workspace := { sample_valid_ws with username := "bob" }

/-- The surroundings of user `erin` (uid 1005): her primary group is `hpc`
(id 200), the group database lists her as a member of no group, and no group
has the id 1005. -/
def erin_env : Env :=
  { sample_env with uid := 1005, euid := 1005, gid := 200, egid := 200, username := "erin" }

/-- The object the constructor builds for `erin` requesting area `scratch`,
before `validate` runs. -/
def erin_ws : Workspace := { sample_ws (some "scratch") 30 with username := "erin" }

/-- The surroundings of `alice` on a file system that refuses `chown`. -/
def nochown_env : Env := { sample_env with chown_ok := fun _ => false }

/-- The surroundings of `alice` when the rename of her workspace directory is
refused for lack of permission, and `mv` succeeds. -/
def eacces_env : Env :=
  { sample_env with
    rename_errno := fun src _ =>
      if src = "/data/b/alice-proj1" then some Errno.EACCES else none }

/-! ## Lookup in a store -/

theorem eq_empty_of_length_eq_zero (s : String) (h : s.length = 0) : s = "" := by
  cases s with
  | mk d =>
    have hd : d = [] := List.length_eq_zero.mp h
    subst hd
    rfl

theorem lookup_cons_eq {α : Type} (m : List (String × α)) (q : String) (a : α) :
    List.lookup q ((q, a) :: m) = some a := by
  simp [List.lookup_cons]

theorem lookup_cons_ne {α : Type} (m : List (String × α)) (p q : String) (a : α)
    (h : q ≠ p) : List.lookup q ((p, a) :: m) = List.lookup q m := by
  have hb : (q == p) = false := by simpa using h
  simp [List.lookup_cons, hb]

theorem lookup_del {α : Type} (m : List (String × α)) (p q : String) :
    (del m p).lookup q = if q = p then none else m.lookup q := by
  induction m with
  | nil => simp [del]
  | cons e m ih =>
    obtain ⟨k, v⟩ := e
    simp only [del] at ih ⊢
    by_cases hk : k = p
    · subst hk
      by_cases hq : q = k
      · subst hq; simpa using ih
      · rw [lookup_cons_ne _ _ _ _ hq]
        simpa [List.filter_cons, hq] using ih
    · have hk2 : (k != p) = true := by simpa using hk
      by_cases hq : q = k
      · subst hq
        simp [List.filter_cons, hk, lookup_cons_eq]
      · rw [lookup_cons_ne _ _ _ _ hq]
        simp only [List.filter_cons, hk2, if_true]
        rw [lookup_cons_ne _ _ _ _ hq]
        exact ih

theorem lookup_put {α : Type} (m : List (String × α)) (p q : String) (a : α) :
    (put m p a).lookup q = if q = p then some a else m.lookup q := by
  by_cases hq : q = p
  · subst hq; simp [put, lookup_cons_eq]
  · simp only [put, hq, if_false]
    rw [lookup_cons_ne _ _ _ _ hq, lookup_del]
    simp [hq]

/-! ## `validate` -/

theorem userok_iff (user_acl group_acl : List String) (username : String)
    (groupnames : List String) :
    userok user_acl group_acl username groupnames = true ↔
      ((user_acl = [] ∧ group_acl = []) ∨ username ∈ user_acl ∨
        ∃ g ∈ groupnames, g ∈ group_acl) := by
  unfold userok
  by_cases hu : username ∈ user_acl
  · simp [hu]
  · by_cases hg : ∃ g ∈ groupnames, g ∈ group_acl
    · have hany : groupnames.any (fun grp => group_acl.contains grp) = true := by
        obtain ⟨g, hg1, hg2⟩ := hg
        exact List.any_eq_true.mpr ⟨g, hg1, by simpa using hg2⟩
      simp [hu, hany, hg]
    · have hany : groupnames.any (fun grp => group_acl.contains grp) = false := by
        rw [Bool.eq_false_iff]
        intro h
        obtain ⟨g, hg1, hg2⟩ := List.any_eq_true.mp h
        exact hg ⟨g, hg1, by simpa using hg2⟩
      have hg0 : ¬ ∃ g, g ∈ groupnames ∧ g ∈ group_acl := by
        rintro ⟨g, h1, h2⟩
        exact hg ⟨g, h1, h2⟩
      cases user_acl with
      | nil =>
        cases group_acl with
        | nil => simp
        | cons b bs => simp [hany, hg0]
      | cons a as =>
        simp only [hany]
        simp [hu, hg0]

theorem resolve_limits_ne_exit (env : Env) (wc : whichclient) (ws : Workspace)
    (status : Int) (message : String) :
    resolve_limits env wc ws ≠ Except.error (Fatal.exit status message) := by
  unfold resolve_limits
  split
  · cases resolve_limit ws.config ws.userconfig ws.filesystem ws.username "duration" with
    | none => simp
    | some c =>
      cases resolve_limit ws.config ws.userconfig ws.filesystem ws.username
          "maxextensions" with
      | none => simp
      | some m => simp
  · simp

theorem select_filesystem_fields (env : Env) (ws ws1 : Workspace)
    (h : select_filesystem env ws = Except.ok ws1) :
    ws1.config = ws.config ∧ ws1.userconfig = ws.userconfig ∧ ws1.opt = ws.opt ∧
      ws1.duration = ws.duration ∧ ws1.username = ws.username ∧ ws1.db_uid = ws.db_uid ∧
      ws1.db_gid = ws.db_gid ∧ ws1.maxextensions = ws.maxextensions := by
  unfold select_filesystem at h
  simp only [] at h
  cases hpg : getgrgid env env.egid with
  | none => rw [hpg] at h; cases h
  | some primarygroup =>
    rw [hpg] at h
    simp only [] at h
    split at h
    · split at h
      · cases h; simp
      · simp at h
    · split at h
      · cases h; simp
      · simp at h

/-- The ACL check as the code performs it: with the primary group resolved,
a requested area passes if and only if both ACL lists are empty, or the
username is in the user ACL, or a name of the vector `groupnames` is in the
group ACL; otherwise the run ends with exit status 4. -/
theorem requested_area_check (env : Env) (wc : whichclient) (ws : Workspace)
    (requested primarygroup : String) (user_acl group_acl : List String)
    (hpg : getgrgid env env.egid = some primarygroup)
    (hreq : ws.opt.filesystem = some requested)
    (hu : read_acl ws.config requested "user_acl" = user_acl)
    (hg : read_acl ws.config requested "group_acl" = group_acl) :
    (select_filesystem env ws = Except.ok { ws with acctcode := primarygroup } ↔
      ((user_acl = [] ∧ group_acl = []) ∨ ws.username ∈ user_acl ∨
        ∃ g ∈ groupnames env ws.username, g ∈ group_acl)) ∧
    (Workspace.validate env wc ws = Except.error
        (Fatal.exit 4 "Error: You are not allowed to use the specified workspace!") ↔
      ¬ ((user_acl = [] ∧ group_acl = []) ∨ ws.username ∈ user_acl ∨
        ∃ g ∈ groupnames env ws.username, g ∈ group_acl)) := by
  have hk := userok_iff user_acl group_acl ws.username (groupnames env ws.username)
  by_cases hok : userok user_acl group_acl ws.username (groupnames env ws.username) = true
  · have hsel : select_filesystem env ws =
        Except.ok { ws with acctcode := primarygroup } := by
      simp [select_filesystem, hpg, hreq, hu, hg, hok]
    refine ⟨⟨fun _ => hk.mp hok, fun _ => hsel⟩, ⟨fun h => ?_, fun h => absurd (hk.mp hok) h⟩⟩
    exfalso
    unfold Workspace.validate at h
    rw [hsel] at h
    exact resolve_limits_ne_exit _ _ _ _ _ h
  · have hsel : select_filesystem env ws = Except.error
        (Fatal.exit 4 "Error: You are not allowed to use the specified workspace!") := by
      simp [select_filesystem, hpg, hreq, hu, hg, hok]
    refine ⟨⟨fun h => ?_, fun h => absurd (hk.mpr h) hok⟩, ⟨fun _ h => hok (hk.mpr h), fun _ => ?_⟩⟩
    · rw [hsel] at h; cases h
    · unfold Workspace.validate
      rw [hsel]

/-- C1, evaluated at a failing input: `erin` requests the area `scratch`,
whose group ACL lists `hpc`; `hpc` is her primary group, so one of her group
names is in the group ACL. Line 291 hands `geteuid()` to `getgrouplist` where
the group id belongs, no group has that id and the group database lists her
nowhere, so the vector `groupnames` is empty and `validate` ends the run with
exit status 4. -/
theorem validate_requested_area_denies_primary_group :
    erin_env.username = "erin" ∧ erin_ws.opt.filesystem = some "scratch" ∧
    getgrgid erin_env erin_env.egid = some "hpc" ∧
    read_acl erin_ws.config "scratch" "user_acl" = ["carol"] ∧
    read_acl erin_ws.config "scratch" "group_acl" = ["hpc"] ∧
    getgrouplist erin_env "erin" erin_env.euid = [1005] ∧
    getgrgid erin_env 1005 = none ∧
    groupnames erin_env "erin" = [] ∧
    Workspace.validate erin_env whichclient.WS_Allocate erin_ws = Except.error
      (Fatal.exit 4 "Error: You are not allowed to use the specified workspace!") := by
  refine ⟨by decide, by decide, by decide, by decide, by decide, by decide, by decide,
    by decide, rfl⟩

/-- C5: in an allocate-action validation with resolved duration cap `c` and
requested duration `d`, the effective duration becomes `c` when the caller is
not the superuser and `d > c`, and stays `d` when the caller is the superuser
or `d <= c`; for a non-superuser it is `min d c`. -/
theorem validate_duration_clamp (env : Env) (ws ws1 : Workspace) (c d m : Int)
    (hd : ws.opt.duration = d) (hd0 : ws.duration = d)
    (hsel : select_filesystem env ws = Except.ok ws1)
    (hc : resolve_limit ws1.config ws1.userconfig ws1.filesystem ws1.username "duration"
      = some c)
    (hm : resolve_limit ws1.config ws1.userconfig ws1.filesystem ws1.username
      "maxextensions" = some m) :
    ∃ ws2, Workspace.validate env whichclient.WS_Allocate ws = Except.ok ws2 ∧
      (env.uid ≠ 0 → d > c → ws2.duration = c) ∧
      ((env.uid = 0 ∨ d ≤ c) → ws2.duration = d) ∧
      (env.uid ≠ 0 → ws2.duration = min d c) := by
  obtain ⟨-, -, hopt, hdur, -⟩ := select_filesystem_fields env ws ws1 hsel
  have hd1 : ws1.opt.duration = d := by rw [hopt, hd]
  have hd2 : ws1.duration = d := by rw [hdur, hd0]
  refine ⟨{ ws1 with
      duration := if env.uid ≠ 0 ∧ ws1.opt.duration > c then c else ws1.duration,
      maxextensions := m }, ?_, ?_, ?_, ?_⟩
  · unfold Workspace.validate
    rw [hsel]
    simp [resolve_limits, hc, hm]
  · intro hu hgt
    simp [hd1, hu, hgt]
  · intro h
    rcases h with h | h
    · simp [h, hd2]
    · have : ¬ (c < d) := not_lt.mpr h
      simp [hd1, hd2, this]
  · intro hu
    by_cases hgt : c < d
    · simp [hd1, hu, hgt, min_eq_right (le_of_lt hgt)]
    · simp [hd1, hd2, hu, hgt, min_eq_left (not_lt.mp hgt)]

theorem validate_duration_clamp_witness :
    ∃ ws2, Workspace.validate sample_env whichclient.WS_Allocate (sample_ws none 45)
        = Except.ok ws2 ∧
      (sample_env.uid ≠ 0 → (45 : Int) > 10 → ws2.duration = 10) ∧
      ((sample_env.uid = 0 ∨ (45 : Int) ≤ 10) → ws2.duration = 45) ∧
      (sample_env.uid ≠ 0 → ws2.duration = min 45 10) :=
  validate_duration_clamp sample_env (sample_ws none 45)
    { sample_ws none 45 with acctcode := "users", filesystem := "home" } 10 45 1
    rfl rfl rfl rfl rfl

theorem foldl_none_defaults (key : String) (config : Yaml) (entries : List (String × Yaml))
    (acc : List (String × String)) :
    (entries.map (fun _ => (none : Option String))).foldl (collect_defaults config key) acc
      = acc := by
  induction entries generalizing acc with
  | nil => rfl
  | cons e es ih => simpa [collect_defaults] using ih acc

/-- Whatever nodes the loop of lines 340-349 visits, a configuration without
the key `workspaces.` leaves the default maps empty. -/
theorem foldl_without_dotted_key (key : String) (config : Yaml)
    (h : idx (Node.defined config) "workspaces." = Node.undefined)
    (vs : List (Option String)) (acc : List (String × String)) :
    vs.foldl (collect_defaults config key) acc = acc := by
  induction vs generalizing acc with
  | nil => rfl
  | cons v vs ih =>
    have hstep : collect_defaults config key acc v = acc := by
      cases v with
      | none => rfl
      | some area =>
        unfold collect_defaults
        rw [h]
        rfl
    simpa [hstep] using ih acc

/-- Whenever the node `workspaces` of the configuration is a map, as every
lookup `config["workspaces"][filesystem]` of the program needs it to be, both
default maps of `validate` are empty. -/
theorem read_defaults_of_map (config : Yaml) (key : String) (entries : List (String × Yaml))
    (h : idx (Node.defined config) "workspaces" = Node.defined (Yaml.map entries)) :
    read_defaults config key = some [] := by
  unfold read_defaults
  rw [h]
  simp only [iter_as_string, Option.map_some']
  rw [foldl_none_defaults key config entries []]

/-- With the node `workspaces` a map, the area selected without a request is
the global default, whatever `userdefault` and `groupdefault` lists the areas
carry. -/
theorem default_filesystem_of_map (config : Yaml) (username primarygroup : String)
    (groupnames : List String) (entries : List (String × Yaml))
    (h : idx (Node.defined config) "workspaces" = Node.defined (Yaml.map entries)) :
    default_filesystem config username primarygroup groupnames
      = as_string (idx (Node.defined config) "default") := by
  unfold default_filesystem
  simp only [read_defaults_of_map config _ entries h, List.lookup_nil]
  have hnone : groupnames.findSome? (fun _ => (none : Option String)) = none := by
    induction groupnames with
    | nil => rfl
    | cons g gs ih => simp [List.findSome?_cons, ih]
  rw [hnone]

/-- The selection of lines 350-365 on the two maps as they are: an entry for
the username wins, then an entry for the primary group. -/
theorem default_filesystem_priority (config : Yaml) (username primarygroup : String)
    (groupnames : List String) (user_defaults groups_defaults : List (String × String))
    (hu : read_defaults config "userdefault" = some user_defaults)
    (hg : read_defaults config "groupdefault" = some groups_defaults) :
    (∀ area, user_defaults.lookup username = some area →
      default_filesystem config username primarygroup groupnames = some area) ∧
    (∀ area, user_defaults.lookup username = none →
      groups_defaults.lookup primarygroup = some area →
      default_filesystem config username primarygroup groupnames = some area) := by
  refine ⟨fun area h => ?_, fun area h1 h2 => ?_⟩
  · simp [default_filesystem, hu, hg, h]
  · simp [default_filesystem, hu, hg, h1, h2]

/-- C6, evaluated at a failing input: user `alice` with primary group `users`
requests no storage area; area `scratch` lists `alice` in `userdefault` and
`users` in `groupdefault`, and the global default is `home`. The loop of lines
340-349 looks the lists up under the key `workspaces.`, which the
configuration does not have, so whatever nodes the loop visits both default
maps stay empty (and converting an entry of the map `workspaces` to a string
throws before that), and `validate` selects `home`. -/
theorem validate_default_area_ignores_defaults :
    read_defaults sample_config "userdefault" = some [] ∧
    read_defaults sample_config "groupdefault" = some [] ∧
    (∀ vs : List (Option String),
      vs.foldl (collect_defaults sample_config "userdefault") [] = [] ∧
      vs.foldl (collect_defaults sample_config "groupdefault") [] = []) ∧
    as_string_vector (idx (idx (idx (Node.defined sample_config) "workspaces") "scratch")
      "userdefault") = some ["alice"] ∧
    as_string_vector (idx (idx (idx (Node.defined sample_config) "workspaces") "scratch")
      "groupdefault") = some ["users"] ∧
    sample_env.username = "alice" ∧ getgrgid sample_env sample_env.egid = some "users" ∧
    (select_filesystem sample_env (sample_ws none 30)).toOption.map
      (fun ws => ws.filesystem) = some "home" ∧
    (Workspace.validate sample_env whichclient.WS_Release (sample_ws none 30)).toOption.map
      (fun ws => ws.filesystem) = some "home" := by
  refine ⟨by decide, by decide, fun vs => ⟨?_, ?_⟩, by decide, by decide, by decide,
    by decide, by decide, by decide⟩
  · exact foldl_without_dotted_key "userdefault" sample_config rfl vs []
  · exact foldl_without_dotted_key "groupdefault" sample_config rfl vs []

/-! ## `allocate` -/

theorem events_since_self (w : World) : events_since w w = [] := by
  simp [events_since]

theorem reuse_workspace_log (env : Env) (ws : Workspace) (extensionflag : Bool)
    (reminder : Int) (mailaddress user_option dbfilename : String) (file : DbFile) (w : World) :
    ∀ e ∈ events_since w
      (reuse_workspace env ws extensionflag reminder mailaddress user_option dbfilename file w).1,
      written e = true := by
  unfold reuse_workspace events_since
  simp only []
  repeat' split
  all_goals simp [report, tick, write_dbfile, written]

@[simp] theorem raise_cap_db (c : Cap) (w : World) : (raise_cap c w).db = w.db := rfl
@[simp] theorem raise_cap_dirs (c : Cap) (w : World) : (raise_cap c w).dirs = w.dirs := rfl
@[simp] theorem raise_cap_ticks (c : Cap) (w : World) : (raise_cap c w).ticks = w.ticks := rfl
@[simp] theorem raise_cap_log (c : Cap) (w : World) :
    (raise_cap c w).log = w.log ++ [Event.raise_cap c] := rfl
@[simp] theorem lower_cap_db (c : Cap) (u : Int) (w : World) : (lower_cap c u w).db = w.db := rfl
@[simp] theorem lower_cap_dirs (c : Cap) (u : Int) (w : World) :
    (lower_cap c u w).dirs = w.dirs := rfl
@[simp] theorem lower_cap_ticks (c : Cap) (u : Int) (w : World) :
    (lower_cap c u w).ticks = w.ticks := rfl
@[simp] theorem lower_cap_log (c : Cap) (u : Int) (w : World) :
    (lower_cap c u w).log = w.log ++ [Event.lower_cap c u] := rfl
@[simp] theorem tick_db (w : World) : (tick w).db = w.db := rfl
@[simp] theorem tick_dirs (w : World) : (tick w).dirs = w.dirs := rfl
@[simp] theorem tick_raised (w : World) : (tick w).raised = w.raised := rfl
@[simp] theorem tick_ticks (w : World) : (tick w).ticks = w.ticks + 1 := rfl
@[simp] theorem tick_log (w : World) : (tick w).log = w.log := rfl
@[simp] theorem write_dbfile_db (p : String) (r : Record) (u g : Int) (w : World) :
    (write_dbfile p r u g w).db = put w.db p { record := r, uid := u, gid := g } := rfl
@[simp] theorem write_dbfile_dirs (p : String) (r : Record) (u g : Int) (w : World) :
    (write_dbfile p r u g w).dirs = w.dirs := rfl
@[simp] theorem write_dbfile_raised (p : String) (r : Record) (u g : Int) (w : World) :
    (write_dbfile p r u g w).raised = w.raised := rfl
@[simp] theorem write_dbfile_ticks (p : String) (r : Record) (u g : Int) (w : World) :
    (write_dbfile p r u g w).ticks = w.ticks := rfl
@[simp] theorem write_dbfile_log (p : String) (r : Record) (u g : Int) (w : World) :
    (write_dbfile p r u g w).log = w.log ++ [Event.write_dbfile p r u g] := rfl
@[simp] theorem create_directories_db (env : Env) (p : String) (w : World) :
    (create_directories env p w).db = w.db := rfl
@[simp] theorem create_directories_raised (env : Env) (p : String) (w : World) :
    (create_directories env p w).raised = w.raised := rfl
@[simp] theorem create_directories_ticks (env : Env) (p : String) (w : World) :
    (create_directories env p w).ticks = w.ticks := rfl
@[simp] theorem create_directories_log (env : Env) (p : String) (w : World) :
    (create_directories env p w).log = w.log ++ [Event.create_directories p true] := rfl
@[simp] theorem chown_db (env : Env) (p : String) (u g : Nat) (w : World) :
    (chown env p u g w).db = w.db := rfl
@[simp] theorem chown_raised (env : Env) (p : String) (u g : Nat) (w : World) :
    (chown env p u g w).raised = w.raised := rfl
@[simp] theorem chown_ticks (env : Env) (p : String) (u g : Nat) (w : World) :
    (chown env p u g w).ticks = w.ticks := rfl
@[simp] theorem chown_log (env : Env) (p : String) (u g : Nat) (w : World) :
    (chown env p u g w).log = w.log ++ [Event.chown p u g (chown_succeeds env w p)] := rfl
@[simp] theorem chmod_db (env : Env) (p : String) (m : Nat) (w : World) :
    (chmod env p m w).db = w.db := rfl
@[simp] theorem chmod_raised (env : Env) (p : String) (m : Nat) (w : World) :
    (chmod env p m w).raised = w.raised := rfl
@[simp] theorem chmod_ticks (env : Env) (p : String) (m : Nat) (w : World) :
    (chmod env p m w).ticks = w.ticks := rfl
@[simp] theorem chmod_log (env : Env) (p : String) (m : Nat) (w : World) :
    (chmod env p m w).log = w.log ++ [Event.chmod p m (chmod_succeeds env w p)] := rfl
@[simp] theorem unlink_db (p : String) (w : World) : (unlink p w).db = w.db := rfl
@[simp] theorem unlink_dirs (p : String) (w : World) : (unlink p w).dirs = w.dirs := rfl
@[simp] theorem unlink_raised (p : String) (w : World) : (unlink p w).raised = w.raised := rfl
@[simp] theorem unlink_ticks (p : String) (w : World) : (unlink p w).ticks = w.ticks := rfl
@[simp] theorem unlink_log (p : String) (w : World) :
    (unlink p w).log = w.log ++ [Event.unlink p false] := rfl

theorem create_directories_lookup (env : Env) (path : String) (w : World) :
    ∃ d, (create_directories env path w).dirs.lookup path = some d := by
  unfold create_directories
  cases h : w.dirs.lookup path with
  | some d => exact ⟨d, by simp [h]⟩
  | none =>
    exact ⟨{ uid := env.euid, gid := env.egid, mode := 0o775 }, by simp [h, lookup_put]⟩

theorem chown_lookup (env : Env) (path : String) (u g : Nat) (w : World) (d : DirMeta)
    (hd : w.dirs.lookup path = some d) (hok : env.chown_ok path = true) :
    (chown env path u g w).dirs.lookup path = some { d with uid := u, gid := g } := by
  simp [chown, hd, hok, lookup_put]

theorem chmod_lookup (env : Env) (path : String) (m : Nat) (w : World) (d : DirMeta)
    (hd : w.dirs.lookup path = some d) (hok : env.chmod_ok path = true) :
    (chmod env path m w).dirs.lookup path = some { d with mode := m } := by
  simp [chmod, hd, hok, lookup_put]

theorem events_since_append (w w1 : World) (evs : List Event) (h : w1.log = w.log ++ evs) :
    events_since w w1 = evs := by
  simp [events_since, h]

theorem chown_succeeds_after_create (env : Env) (ws : Workspace) (wsdir : String) (w : World) :
    chown_succeeds env (raise_cap Cap.CAP_CHOWN (lower_cap Cap.CAP_DAC_OVERRIDE ws.db_uid
      (create_directories env wsdir (raise_cap Cap.CAP_DAC_OVERRIDE w)))) wsdir
      = env.chown_ok wsdir := by
  obtain ⟨d, hd⟩ := create_directories_lookup env wsdir (raise_cap Cap.CAP_DAC_OVERRIDE w)
  simp [chown_succeeds, hd]

theorem chmod_succeeds_after_chown (env : Env) (ws : Workspace) (wsdir : String) (w : World)
    (hown : env.chown_ok wsdir = true) :
    chmod_succeeds env (raise_cap Cap.CAP_DAC_OVERRIDE (lower_cap Cap.CAP_CHOWN ws.db_uid
      (chown env wsdir env.uid env.gid (raise_cap Cap.CAP_CHOWN
        (lower_cap Cap.CAP_DAC_OVERRIDE ws.db_uid
          (create_directories env wsdir (raise_cap Cap.CAP_DAC_OVERRIDE w))))))) wsdir
      = env.chmod_ok wsdir := by
  obtain ⟨d, hd⟩ := create_directories_lookup env wsdir (raise_cap Cap.CAP_DAC_OVERRIDE w)
  have h1 := chown_lookup env wsdir env.uid env.gid
    (raise_cap Cap.CAP_CHOWN (lower_cap Cap.CAP_DAC_OVERRIDE ws.db_uid
      (create_directories env wsdir (raise_cap Cap.CAP_DAC_OVERRIDE w)))) d (by simpa using hd) hown
  simp [chmod_succeeds, h1]

/-- The database entry `make_workspace` writes for the directory `wsdir`. -/
theorem make_workspace_ok (env : Env) (ws : Workspace) (wsdir : String) (reminder : Int)
    (mailaddress dbfilename : String) (w : World)
    (hmk : env.create_directories_ok wsdir = true) (hown : env.chown_ok wsdir = true)
    (hmod : env.chmod_ok wsdir = true) :
    (make_workspace env ws wsdir reminder mailaddress dbfilename w).1.dirs.lookup wsdir
      = some { uid := env.uid, gid := env.gid, mode := 0o700 } ∧
    (make_workspace env ws wsdir reminder mailaddress dbfilename w).1.db
      = put w.db dbfilename
          { record := { wsdir := wsdir,
                        expiration := env.clock w.ticks + duration_seconds ws.duration,
                        extensions := ws.maxextensions, acctcode := "",
                        reminder := reminder, mailaddress := mailaddress },
            uid := ws.db_uid, gid := ws.db_gid } ∧
    events_since w (make_workspace env ws wsdir reminder mailaddress dbfilename w).1
      = [Event.raise_cap Cap.CAP_DAC_OVERRIDE, Event.create_directories wsdir true,
         Event.lower_cap Cap.CAP_DAC_OVERRIDE ws.db_uid,
         Event.raise_cap Cap.CAP_CHOWN, Event.chown wsdir env.uid env.gid true,
         Event.lower_cap Cap.CAP_CHOWN ws.db_uid,
         Event.raise_cap Cap.CAP_DAC_OVERRIDE, Event.chmod wsdir 0o700 true,
         Event.lower_cap Cap.CAP_DAC_OVERRIDE ws.db_uid,
         Event.write_dbfile dbfilename
           { wsdir := wsdir, expiration := env.clock w.ticks + duration_seconds ws.duration,
             extensions := ws.maxextensions, acctcode := "",
             reminder := reminder, mailaddress := mailaddress } ws.db_uid ws.db_gid] ∧
    (make_workspace env ws wsdir reminder mailaddress dbfilename w).2
      = Except.ok { wsdir := wsdir, extension := ws.maxextensions,
                    days := (env.clock w.ticks + duration_seconds ws.duration
                      - env.clock (w.ticks + 1)).tdiv (24 * 3600) } := by
  obtain ⟨d, hd⟩ := create_directories_lookup env wsdir (raise_cap Cap.CAP_DAC_OVERRIDE w)
  have h1 := chown_lookup env wsdir env.uid env.gid
    (raise_cap Cap.CAP_CHOWN (lower_cap Cap.CAP_DAC_OVERRIDE ws.db_uid
      (create_directories env wsdir (raise_cap Cap.CAP_DAC_OVERRIDE w)))) d (by simpa using hd) hown
  have h2 := chmod_lookup env wsdir (S_IRUSR ||| S_IWUSR ||| S_IXUSR)
    (raise_cap Cap.CAP_DAC_OVERRIDE (lower_cap Cap.CAP_CHOWN ws.db_uid
      (chown env wsdir env.uid env.gid (raise_cap Cap.CAP_CHOWN
        (lower_cap Cap.CAP_DAC_OVERRIDE ws.db_uid
          (create_directories env wsdir (raise_cap Cap.CAP_DAC_OVERRIDE w)))))))
    _ (by simpa using h1) hmod
  have hc1 := chown_succeeds_after_create env ws wsdir w
  have hc2 := chmod_succeeds_after_chown env ws wsdir w hown
  have hmode : S_IRUSR ||| S_IWUSR ||| S_IXUSR = 448 := by decide
  unfold make_workspace
  simp only [hmk, hc1, hc2, hown, hmod]
  refine ⟨?_, ?_, ?_, ?_⟩
  · rw [hmode] at h2
    simpa [report, hmode] using h2
  · simp [report, now]
  · apply events_since_append
    simp [report, hc1, hc2, hown, hmod, hmode, now]
  · simp [report, now]

/-- When a creation step fails, the log of `make_workspace` lacks a successful
step. -/
theorem make_workspace_steps (env : Env) (ws : Workspace) (wsdir : String) (reminder : Int)
    (mailaddress dbfilename : String) (w : World)
    (h : (events_since w (make_workspace env ws wsdir reminder mailaddress dbfilename w).1).any
          created = true ∧
        (events_since w (make_workspace env ws wsdir reminder mailaddress dbfilename w).1).any
          chowned = true ∧
        (events_since w (make_workspace env ws wsdir reminder mailaddress dbfilename w).1).any
          chmoded = true) :
    env.create_directories_ok wsdir = true ∧ env.chown_ok wsdir = true ∧
      env.chmod_ok wsdir = true := by
  have hc1 := chown_succeeds_after_create env ws wsdir w
  by_cases hmk : env.create_directories_ok wsdir = true
  · by_cases hown : env.chown_ok wsdir = true
    · have hc2 := chmod_succeeds_after_chown env ws wsdir w hown
      by_cases hmod : env.chmod_ok wsdir = true
      · exact ⟨hmk, hown, hmod⟩
      · exfalso
        have hlog : (make_workspace env ws wsdir reminder mailaddress dbfilename w).1.log
            = w.log ++ [Event.raise_cap Cap.CAP_DAC_OVERRIDE,
                Event.create_directories wsdir true,
                Event.lower_cap Cap.CAP_DAC_OVERRIDE ws.db_uid,
                Event.raise_cap Cap.CAP_CHOWN, Event.chown wsdir env.uid env.gid true,
                Event.lower_cap Cap.CAP_CHOWN ws.db_uid,
                Event.raise_cap Cap.CAP_DAC_OVERRIDE,
                Event.chmod wsdir (S_IRUSR ||| S_IWUSR ||| S_IXUSR) false,
                Event.lower_cap Cap.CAP_DAC_OVERRIDE ws.db_uid, Event.unlink wsdir false] := by
          unfold make_workspace
          simp only [hmk, hc1, hc2, hown, hmod]
          simp [hc1, hc2, hown, hmod]
        rw [events_since_append _ _ _ hlog] at h
        simp [chmoded] at h
    · exfalso
      have hlog : (make_workspace env ws wsdir reminder mailaddress dbfilename w).1.log
          = w.log ++ [Event.raise_cap Cap.CAP_DAC_OVERRIDE,
              Event.create_directories wsdir true,
              Event.lower_cap Cap.CAP_DAC_OVERRIDE ws.db_uid,
              Event.raise_cap Cap.CAP_CHOWN, Event.chown wsdir env.uid env.gid false,
              Event.lower_cap Cap.CAP_CHOWN ws.db_uid, Event.unlink wsdir false] := by
        unfold make_workspace
        simp only [hmk, hc1, hown]
        simp [hc1, hown]
      rw [events_since_append _ _ _ hlog] at h
      simp [chowned] at h
  · exfalso
    have hlog : (make_workspace env ws wsdir reminder mailaddress dbfilename w).1.log
        = w.log ++ [Event.raise_cap Cap.CAP_DAC_OVERRIDE,
            Event.create_directories wsdir false,
            Event.lower_cap Cap.CAP_DAC_OVERRIDE ws.db_uid] := by
      unfold make_workspace
      simp [hmk]
    rw [events_since_append _ _ _ hlog] at h
    simp [created] at h

theorem validate_maxextensions (env : Env) (ws0 ws : Workspace)
    (hv : Workspace.validate env whichclient.WS_Allocate ws0 = Except.ok ws) :
    resolve_limit ws.config ws.userconfig ws.filesystem ws.username "maxextensions"
      = some ws.maxextensions := by
  unfold Workspace.validate at hv
  cases hsel : select_filesystem env ws0 with
  | error e => rw [hsel] at hv; cases hv
  | ok ws1 =>
    rw [hsel] at hv
    unfold resolve_limits at hv
    simp only [if_true] at hv
    cases hc : resolve_limit ws1.config ws1.userconfig ws1.filesystem ws1.username
        "duration" with
    | none => rw [hc] at hv; cases hv
    | some c =>
      rw [hc] at hv
      cases hm : resolve_limit ws1.config ws1.userconfig ws1.filesystem ws1.username
          "maxextensions" with
      | none => rw [hm] at hv; cases hv
      | some m =>
        rw [hm] at hv
        simp only [Except.ok.injEq] at hv
        subst hv
        exact hm

theorem written_not_created (e : Event) (h : written e = true) : created e = false := by
  cases e <;> simp_all [written, created]

theorem allocate_override_log (env : Env) (ws : Workspace) (name : String)
    (extensionflag : Bool) (reminder : Int) (mailaddress user_option : String) (w : World)
    (hx : extensionflag = true ∧ user_option.length > 0) :
    ∀ e ∈ events_since w
      (Workspace.allocate env ws name extensionflag reminder mailaddress user_option w).1,
      written e = true := by
  unfold Workspace.allocate
  cases hdb : as_string (idx (idx (idx (Node.defined ws.config) "workspaces") ws.filesystem)
      "database") with
  | none => simp [events_since]
  | some database =>
    simp only [hx, and_self, if_true, true_and]
    cases hl : w.db.lookup (database ++ "/" ++ user_option ++ "-" ++ name) with
    | none => simp [fs_exists, hl, events_since]
    | some file =>
      simp only [fs_exists, hl, Option.isSome_some, Bool.true_eq_false, if_false]
      exact reuse_workspace_log env ws true reminder mailaddress user_option _ file w

theorem allocate_eq_make (env : Env) (ws : Workspace) (name : String)
    (extensionflag : Bool) (reminder : Int) (mailaddress user_option : String) (w : World)
    (database : String) (spaces : List String)
    (hdb : as_string (idx (idx (idx (Node.defined ws.config) "workspaces") ws.filesystem) "database")
      = some database)
    (habsent : fs_exists w (database ++ "/" ++ ws.username ++ "-" ++ name) = false)
    (hspaces : as_string_vector
      (idx (idx (idx (Node.defined ws.config) "workspaces") ws.filesystem) "spaces") = some spaces)
    (hx : ¬ (extensionflag = true ∧ user_option.length > 0))
    (hi : env.rand (env.clock w.ticks) % spaces.length < spaces.length) :
    Workspace.allocate env ws name extensionflag reminder mailaddress user_option w
      = make_workspace env ws
          (spaces.get ⟨_, hi⟩ ++ prefix_of env ++ "/" ++ ws.username ++ "-" ++ name)
          reminder mailaddress (database ++ "/" ++ ws.username ++ "-" ++ name) (tick w) := by
  have hlen : ¬ spaces.length = 0 := by omega
  have hl : w.db.lookup (database ++ "/" ++ ws.username ++ "-" ++ name) = none := by
    simpa [fs_exists] using habsent
  unfold Workspace.allocate
  simp only [hdb, hx, if_false, false_and, hl]
  unfold create_workspace
  simp only [hspaces, dif_neg hlen, now]

/-- C2: an `allocate` call whose record `<database>/<username>-<name>` is
absent, whose area has a non-empty list of spaces and whose three creation
steps succeed (the log of the call holds a `create_directories`, a `chown`
and a `chmod` that succeeded) creates the directory
`<s><prefix>/<username>-<name>` for an element `s` of the spaces (the random
index is in bounds), gives it to the invoking real user with mode 0700, and
writes exactly one record, at `<database>/<username>-<name>`, holding that
directory and the resolved max-extensions. -/
theorem allocate_creates_workspace (env : Env) (ws0 ws : Workspace) (name : String)
    (extensionflag : Bool) (reminder : Int) (mailaddress user_option : String) (w : World)
    (database : String) (spaces : List String)
    (hv : Workspace.validate env whichclient.WS_Allocate ws0 = Except.ok ws)
    (hdb : as_string (idx (idx (idx (Node.defined ws.config) "workspaces") ws.filesystem) "database")
      = some database)
    (habsent : fs_exists w (database ++ "/" ++ ws.username ++ "-" ++ name) = false)
    (hspaces : as_string_vector
      (idx (idx (idx (Node.defined ws.config) "workspaces") ws.filesystem) "spaces") = some spaces)
    (hne : spaces ≠ [])
    (hsteps :
      (events_since w (Workspace.allocate env ws name extensionflag reminder mailaddress
        user_option w).1).any created = true ∧
      (events_since w (Workspace.allocate env ws name extensionflag reminder mailaddress
        user_option w).1).any chowned = true ∧
      (events_since w (Workspace.allocate env ws name extensionflag reminder mailaddress
        user_option w).1).any chmoded = true) :
    ∃ hi : env.rand (env.clock w.ticks) % spaces.length < spaces.length,
      let s := spaces.get ⟨env.rand (env.clock w.ticks) % spaces.length, hi⟩
      let wsdir := s ++ prefix_of env ++ "/" ++ ws.username ++ "-" ++ name
      let dbfilename := database ++ "/" ++ ws.username ++ "-" ++ name
      let record : Record :=
        { wsdir := wsdir, expiration := env.clock (w.ticks + 1) + duration_seconds ws.duration,
          extensions := ws.maxextensions, acctcode := "", reminder := reminder,
          mailaddress := mailaddress }
      let r := Workspace.allocate env ws name extensionflag reminder mailaddress user_option w
      s ∈ spaces ∧
      Event.create_directories wsdir true ∈ events_since w r.1 ∧
      Event.chown wsdir env.uid env.gid true ∈ events_since w r.1 ∧
      Event.chmod wsdir 0o700 true ∈ events_since w r.1 ∧
      r.1.dirs.lookup wsdir = some { uid := env.uid, gid := env.gid, mode := 0o700 } ∧
      (events_since w r.1).filter written
        = [Event.write_dbfile dbfilename record ws.db_uid ws.db_gid] ∧
      r.1.db.lookup dbfilename
        = some { record := record, uid := ws.db_uid, gid := ws.db_gid } ∧
      resolve_limit ws.config ws.userconfig ws.filesystem ws.username "maxextensions"
        = some record.extensions := by
  have hpos : 0 < spaces.length := List.length_pos.mpr hne
  have hi : env.rand (env.clock w.ticks) % spaces.length < spaces.length :=
    Nat.mod_lt _ hpos
  have hx : ¬ (extensionflag = true ∧ user_option.length > 0) := by
    intro hx
    have hall := allocate_override_log env ws name extensionflag reminder mailaddress
      user_option w hx
    obtain ⟨e, he, hc⟩ := List.any_eq_true.mp hsteps.1
    have := written_not_created e (hall e he)
    rw [hc] at this
    cases this
  have heq := allocate_eq_make env ws name extensionflag reminder mailaddress user_option w
    database spaces hdb habsent hspaces hx hi
  have hev : ∀ w1 : World, events_since w w1 = events_since (tick w) w1 := fun _ => rfl
  rw [heq] at hsteps
  simp only [hev] at hsteps
  obtain ⟨hmk, hown, hmod⟩ := make_workspace_steps env ws _ reminder mailaddress _ (tick w) hsteps
  obtain ⟨h1, h2, h3, -⟩ := make_workspace_ok env ws _ reminder mailaddress
    (database ++ "/" ++ ws.username ++ "-" ++ name) (tick w) hmk hown hmod
  refine ⟨hi, ?_⟩
  simp only [heq, hev]
  refine ⟨List.get_mem _ _ _, ?_, ?_, ?_, h1, ?_, ?_, validate_maxextensions env ws0 ws hv⟩
  · rw [h3]; simp
  · rw [h3]; simp
  · rw [h3]; simp
  · rw [h3]; simp [written]
  · rw [h2]; simp [lookup_put]

theorem allocate_creates_workspace_witness :
    ∃ s ∈ ["/data/a", "/data/b"],
      (Workspace.allocate sample_env sample_valid_ws "proj1" false 7 "alice@example.org" ""
        empty_world).1.dirs.lookup (s ++ "" ++ "/" ++ "alice" ++ "-" ++ "proj1")
        = some { uid := 1000, gid := 100, mode := 0o700 } := by
  obtain ⟨hi, hmem, -, -, -, hdir, -⟩ := allocate_creates_workspace sample_env
    (sample_ws (some "scratch") 30) sample_valid_ws "proj1" false 7 "alice@example.org" ""
    empty_world "/db/scratch" ["/data/a", "/data/b"] rfl (by decide) (by decide) (by decide)
    (by decide) (by decide)
  exact ⟨_, hmem, hdir⟩

theorem allocate_existing (env : Env) (ws : Workspace) (name : String)
    (extensionflag : Bool) (reminder : Int) (mailaddress user_option : String) (w : World)
    (database : String) (file : DbFile)
    (hdb : as_string (idx (idx (idx (Node.defined ws.config) "workspaces") ws.filesystem) "database")
      = some database)
    (hrec : w.db.lookup (if extensionflag = true ∧ user_option.length > 0 then
        database ++ "/" ++ user_option ++ "-" ++ name
      else database ++ "/" ++ ws.username ++ "-" ++ name) = some file) :
    Workspace.allocate env ws name extensionflag reminder mailaddress user_option w
      = reuse_workspace env ws extensionflag reminder mailaddress user_option
          (if extensionflag = true ∧ user_option.length > 0 then
            database ++ "/" ++ user_option ++ "-" ++ name
          else database ++ "/" ++ ws.username ++ "-" ++ name) file w := by
  unfold Workspace.allocate
  simp only [hdb, fs_exists, hrec, Option.isSome_some, Bool.true_eq_false, and_false, if_false]

theorem reuse_workspace_exhausted (env : Env) (ws : Workspace) (reminder : Int)
    (mailaddress user_option dbfilename : String) (file : DbFile) (w : World)
    (huid : env.uid ≠ 0) (hzero : file.record.extensions = 0) :
    reuse_workspace env ws true reminder mailaddress user_option dbfilename file w
      = (w, Except.error (Fatal.exit (-1)
          (if (user_option.length > 0 ∧ user_option ≠ ws.username) ∧
              env.access_rwx file.record.wsdir = false then
            "Info: and you have no permissions to access the workspace, workspace will not be extended."
          else "Error: no more extensions."))) := by
  unfold reuse_workspace
  by_cases hden : (user_option.length > 0 ∧ user_option ≠ ws.username) ∧
      env.access_rwx file.record.wsdir = false
  · have hden2 : (user_option.length > 0 ∧ user_option ≠ ws.username ∧ env.uid ≠ 0) ∧
        env.access_rwx file.record.wsdir = false := ⟨⟨hden.1.1, hden.1.2, huid⟩, hden.2⟩
    simp only []
    rw [if_pos trivial, if_pos hden2, if_pos hden]
  · have hden2 : ¬ ((user_option.length > 0 ∧ user_option ≠ ws.username ∧ env.uid ≠ 0) ∧
        env.access_rwx file.record.wsdir = false) := by
      rintro ⟨⟨h1, h2, -⟩, h3⟩
      exact hden ⟨⟨h1, h2⟩, h3⟩
    have hlt : file.record.extensions - 1 < 0 := by omega
    simp only []
    rw [if_pos trivial, if_neg hden2, if_pos huid, if_pos hlt, if_neg hden]

/-- C4, as the code has it: an extend on an existing record whose
remaining extensions are 0, by a caller who is not the superuser, changes
nothing (no record is written); the run ends with the no-more-extensions
error when the caller is the owner or has read/write/execute access to the
directory, and with the no-permission error otherwise. -/
theorem allocate_extend_exhausted (env : Env) (ws : Workspace) (name : String)
    (reminder : Int) (mailaddress user_option : String) (w : World) (database : String)
    (file : DbFile)
    (hdb : as_string (idx (idx (idx (Node.defined ws.config) "workspaces") ws.filesystem) "database")
      = some database)
    (huid : env.uid ≠ 0)
    (hrec : w.db.lookup (if user_option.length > 0 then
        database ++ "/" ++ user_option ++ "-" ++ name
      else database ++ "/" ++ ws.username ++ "-" ++ name) = some file)
    (hzero : file.record.extensions = 0) :
    let r := Workspace.allocate env ws name true reminder mailaddress user_option w
    r.1 = w ∧
    ((user_option = "" ∨ user_option = ws.username ∨
        env.access_rwx file.record.wsdir = true) →
      r.2 = Except.error (Fatal.exit (-1) "Error: no more extensions.")) ∧
    (¬ (user_option = "" ∨ user_option = ws.username ∨
        env.access_rwx file.record.wsdir = true) →
      r.2 = Except.error (Fatal.exit (-1)
        "Info: and you have no permissions to access the workspace, workspace will not be extended.")) := by
  have hrec1 : w.db.lookup (if true = true ∧ user_option.length > 0 then
        database ++ "/" ++ user_option ++ "-" ++ name
      else database ++ "/" ++ ws.username ++ "-" ++ name) = some file := by
    simpa using hrec
  have h1 := allocate_existing env ws name true reminder mailaddress user_option w database
    file hdb hrec1
  rw [reuse_workspace_exhausted env ws reminder mailaddress user_option _ file w huid hzero]
    at h1
  simp only []
  rw [h1]
  refine ⟨rfl, ?_, ?_⟩
  · intro h
    have hden : ¬ ((user_option.length > 0 ∧ user_option ≠ ws.username) ∧
        env.access_rwx file.record.wsdir = false) := by
      rintro ⟨⟨h1, h2⟩, h3⟩
      rcases h with h | h | h
      · subst h; exact absurd h1 (by decide)
      · exact h2 h
      · rw [h3] at h; cases h
    rw [if_neg hden]
  · intro h
    have hden : (user_option.length > 0 ∧ user_option ≠ ws.username) ∧
        env.access_rwx file.record.wsdir = false := by
      refine ⟨⟨?_, fun h2 => h (Or.inr (Or.inl h2))⟩, ?_⟩
      · have hne : user_option ≠ "" := fun h2 => h (Or.inl h2)
        have hlen : user_option.length ≠ 0 :=
          fun h0 => hne (eq_empty_of_length_eq_zero _ h0)
        omega
      · cases hacc : env.access_rwx file.record.wsdir with
        | false => rfl
        | true => exact absurd (Or.inr (Or.inr hacc)) h
    rw [if_pos hden]

theorem allocate_extend_exhausted_witness :
    (Workspace.allocate sample_env sample_valid_ws "proj1" true 0 "" "" (sample_world 0)).1
        = sample_world 0 ∧
      (Workspace.allocate sample_env sample_valid_ws "proj1" true 0 "" "" (sample_world 0)).2
        = Except.error (Fatal.exit (-1) "Error: no more extensions.") := by
  obtain ⟨h1, h2, -⟩ := allocate_extend_exhausted sample_env sample_valid_ws "proj1" 0 "" ""
    (sample_world 0) "/db/scratch" (sample_file 0) (by decide) (by decide) (by decide)
    (by decide)
  exact ⟨h1, h2 (Or.inl rfl)⟩

/-- C4 fails as stated: `bob`, not the superuser, extends the workspace `proj1`
of `alice`, whose record has 0 remaining extensions, without access to its
directory; the run ends with the no-permission error, not with the
no-more-extensions error. -/
theorem allocate_extend_exhausted_counterexample :
    bob_env.uid ≠ 0 ∧
    (sample_world 0).db.lookup "/db/scratch/alice-proj1" = some (sample_file 0) ∧
    (sample_file 0).record.extensions = 0 ∧
    (Workspace.allocate bob_env bob_ws "proj1" true 0 "" "alice" (sample_world 0)).2
      = Except.error (Fatal.exit (-1)
        "Info: and you have no permissions to access the workspace, workspace will not be extended.") ∧
    (Workspace.allocate bob_env bob_ws "proj1" true 0 "" "alice" (sample_world 0)).2
      ≠ Except.error (Fatal.exit (-1) "Error: no more extensions.") := by
  have h : (Workspace.allocate bob_env bob_ws "proj1" true 0 "" "alice" (sample_world 0)).2
      = Except.error (Fatal.exit (-1)
        "Info: and you have no permissions to access the workspace, workspace will not be extended.") := by
    rfl
  refine ⟨by decide, by decide, by decide, h, ?_⟩
  rw [h]
  intro hcontra
  injection hcontra with h1
  injection h1 with h2 h3
  revert h3
  decide

/-- Whenever `create_directories` succeeds and `chown` or `chmod` fails,
`make_workspace` ends the run without a record and with the directory still
in place. -/
theorem make_workspace_failed_step (env : Env) (ws : Workspace) (wsdir : String)
    (reminder : Int) (mailaddress dbfilename : String) (w : World)
    (hmk : env.create_directories_ok wsdir = true)
    (hfail : env.chown_ok wsdir = false ∨ env.chmod_ok wsdir = false) :
    (∃ message, (make_workspace env ws wsdir reminder mailaddress dbfilename w).2
      = Except.error (Fatal.exit (-1) message)) ∧
    (make_workspace env ws wsdir reminder mailaddress dbfilename w).1.db = w.db ∧
    ((make_workspace env ws wsdir reminder mailaddress dbfilename w).1.dirs.lookup
      wsdir).isSome = true := by
  obtain ⟨d, hd⟩ := create_directories_lookup env wsdir (raise_cap Cap.CAP_DAC_OVERRIDE w)
  have hc1 := chown_succeeds_after_create env ws wsdir w
  cases hown : env.chown_ok wsdir with
  | false =>
    unfold make_workspace
    simp only [hmk, hc1, hown]
    refine ⟨⟨_, rfl⟩, by simp, ?_⟩
    simp [chown, hd, hown]
  | true =>
    have hmod : env.chmod_ok wsdir = false := by
      rcases hfail with h | h
      · rw [hown] at h; cases h
      · exact h
    have hc2 := chmod_succeeds_after_chown env ws wsdir w hown
    have h1 := chown_lookup env wsdir env.uid env.gid
      (raise_cap Cap.CAP_CHOWN (lower_cap Cap.CAP_DAC_OVERRIDE ws.db_uid
        (create_directories env wsdir (raise_cap Cap.CAP_DAC_OVERRIDE w)))) d
      (by simpa using hd) hown
    unfold make_workspace
    simp only [hmk, hc1, hc2, hown, hmod]
    refine ⟨⟨_, rfl⟩, by simp, ?_⟩
    simp [chmod, h1, hmod]

/-- C9, evaluated at a failing input: `alice` allocates `proj1` on an area
where `chown` fails. The run ends with the error of the failed step and no
record is written, but `unlink` removes no directory: the directory that
`create_directories` made is still there. -/
theorem allocate_failed_chown_leaves_directory :
    (Workspace.allocate nochown_env sample_valid_ws "proj1" false 0 "" "" empty_world).2
      = Except.error (Fatal.exit (-1) "Error: could not change owner of workspace!") ∧
    (Workspace.allocate nochown_env sample_valid_ws "proj1" false 0 "" "" empty_world).1.db
      = [] ∧
    empty_world.dirs.lookup "/data/b/alice-proj1" = none ∧
    (Workspace.allocate nochown_env sample_valid_ws "proj1" false 0 "" ""
        empty_world).1.dirs.lookup "/data/b/alice-proj1"
      = some { uid := 1000, gid := 100, mode := 0o775 } ∧
    events_since empty_world
        (Workspace.allocate nochown_env sample_valid_ws "proj1" false 0 "" "" empty_world).1
      = [Event.raise_cap Cap.CAP_DAC_OVERRIDE,
         Event.create_directories "/data/b/alice-proj1" true,
         Event.lower_cap Cap.CAP_DAC_OVERRIDE 85,
         Event.raise_cap Cap.CAP_CHOWN,
         Event.chown "/data/b/alice-proj1" 1000 100 false,
         Event.lower_cap Cap.CAP_CHOWN 85,
         Event.unlink "/data/b/alice-proj1" false] := by
  refine ⟨rfl, ?_, ?_, ?_, ?_⟩ <;> decide

/-! ## Capabilities -/

@[simp] theorem raise_cap_raised (c : Cap) (w : World) :
    (raise_cap c w).raised = if c ∈ w.raised then w.raised else c :: w.raised := rfl
@[simp] theorem lower_cap_raised (c : Cap) (u : Int) (w : World) :
    (lower_cap c u w).raised = w.raised.filter (fun c1 => c1 ≠ c) := rfl
@[simp] theorem rename_db_dirs (env : Env) (s d : String) (w : World) :
    (rename_db env s d w).dirs = w.dirs := rfl
@[simp] theorem rename_db_db (env : Env) (s d : String) (w : World) :
    (rename_db env s d w).db = renamed env w.db s d := rfl
@[simp] theorem rename_db_raised (env : Env) (s d : String) (w : World) :
    (rename_db env s d w).raised = w.raised := rfl
@[simp] theorem rename_db_ticks (env : Env) (s d : String) (w : World) :
    (rename_db env s d w).ticks = w.ticks := rfl
@[simp] theorem rename_db_log (env : Env) (s d : String) (w : World) :
    (rename_db env s d w).log = w.log ++ [Event.rename s d (rename_error env w.db s d)] := rfl
@[simp] theorem rename_dir_dirs (env : Env) (s d : String) (w : World) :
    (rename_dir env s d w).dirs = renamed env w.dirs s d := rfl
@[simp] theorem rename_dir_db (env : Env) (s d : String) (w : World) :
    (rename_dir env s d w).db = w.db := rfl
@[simp] theorem rename_dir_raised (env : Env) (s d : String) (w : World) :
    (rename_dir env s d w).raised = w.raised := rfl
@[simp] theorem rename_dir_ticks (env : Env) (s d : String) (w : World) :
    (rename_dir env s d w).ticks = w.ticks := rfl
@[simp] theorem rename_dir_log (env : Env) (s d : String) (w : World) :
    (rename_dir env s d w).log = w.log ++ [Event.rename s d (rename_error env w.dirs s d)] :=
  rfl
@[simp] theorem mv_db (env : Env) (s d : String) (w : World) : (mv env s d w).db = w.db := rfl
@[simp] theorem mv_raised (env : Env) (s d : String) (w : World) :
    (mv env s d w).raised = w.raised := rfl
@[simp] theorem mv_ticks (env : Env) (s d : String) (w : World) :
    (mv env s d w).ticks = w.ticks := rfl
@[simp] theorem mv_log (env : Env) (s d : String) (w : World) :
    (mv env s d w).log = w.log ++ [Event.mv s d (mv_result env w s d)] := rfl

theorem reuse_workspace_raised (env : Env) (ws : Workspace) (extensionflag : Bool)
    (reminder : Int) (mailaddress user_option dbfilename : String) (file : DbFile) (w : World) :
    (reuse_workspace env ws extensionflag reminder mailaddress user_option dbfilename
      file w).1.raised = w.raised := by
  unfold reuse_workspace
  simp only []
  repeat' split
  all_goals simp [report]

theorem make_workspace_raised (env : Env) (ws : Workspace) (wsdir : String) (reminder : Int)
    (mailaddress dbfilename : String) (w : World) (h : w.raised = []) :
    (make_workspace env ws wsdir reminder mailaddress dbfilename w).1.raised = [] := by
  unfold make_workspace
  simp only []
  repeat' split
  all_goals simp [report, h]

theorem create_workspace_raised (env : Env) (ws : Workspace) (name : String) (reminder : Int)
    (mailaddress dbfilename : String) (w : World) (h : w.raised = []) :
    (create_workspace env ws name reminder mailaddress dbfilename w).1.raised = [] := by
  unfold create_workspace
  simp only []
  repeat' split
  all_goals first
    | exact h
    | exact make_workspace_raised _ _ _ _ _ _ (tick w) h

theorem allocate_raised (env : Env) (ws : Workspace) (name : String) (extensionflag : Bool)
    (reminder : Int) (mailaddress user_option : String) (w : World) (h : w.raised = []) :
    (Workspace.allocate env ws name extensionflag reminder mailaddress user_option w).1.raised
      = [] := by
  unfold Workspace.allocate
  simp only []
  repeat' split
  all_goals first
    | exact h
    | exact (reuse_workspace_raised _ _ _ _ _ _ _ _ _).trans h
    | exact create_workspace_raised _ _ _ _ _ _ _ h

theorem release_raised (env : Env) (ws : Workspace) (name : String) (w : World)
    (h : w.raised = []) (dbuid : Int)
    (hu : as_int (idx (Node.defined ws.config) "dbuid") = some dbuid) :
    (Workspace.release env ws name w).1.raised = [] := by
  unfold Workspace.release
  simp only [hu]
  repeat' split
  all_goals simp_all

theorem validate_fields (env : Env) (wc : whichclient) (ws0 ws : Workspace)
    (hv : Workspace.validate env wc ws0 = Except.ok ws) :
    ws.config = ws0.config ∧ ws.db_uid = ws0.db_uid ∧ ws.username = ws0.username := by
  unfold Workspace.validate at hv
  cases hsel : select_filesystem env ws0 with
  | error e => rw [hsel] at hv; cases hv
  | ok ws1 =>
    obtain ⟨h1, -, -, -, h2, h3, -⟩ := select_filesystem_fields env ws0 ws1 hsel
    rw [hsel] at hv
    unfold resolve_limits at hv
    simp only [] at hv
    split at hv
    · cases hc : resolve_limit ws1.config ws1.userconfig ws1.filesystem ws1.username
          "duration" with
      | none => rw [hc] at hv; cases hv
      | some c =>
        rw [hc] at hv
        cases hm : resolve_limit ws1.config ws1.userconfig ws1.filesystem ws1.username
            "maxextensions" with
        | none => rw [hm] at hv; cases hv
        | some m =>
          rw [hm] at hv
          simp only [Except.ok.injEq] at hv
          subst hv
          exact ⟨h1, h3, h2⟩
    · simp only [Except.ok.injEq] at hv
      subst hv
      exact ⟨h1, h3, h2⟩

theorem construct_ok (env : Env) (wc : whichclient) (_opt : Opt) (_duration : Int)
    (_filesystem : String) (maxextensions0 : Int) (w0 w : World) (ws : Workspace)
    (hc : Workspace.construct env wc _opt _duration _filesystem maxextensions0 w0
      = (w, Except.ok ws)) :
    w.raised = [] ∧ as_int (idx (Node.defined ws.config) "dbuid") = some ws.db_uid := by
  unfold Workspace.construct at hc
  cases hconf : env.etc_ws_conf with
  | none => rw [hconf] at hc; simp at hc
  | some config =>
    rw [hconf] at hc
    simp only [] at hc
    cases hu : as_int (idx (Node.defined config) "dbuid") with
    | none => rw [hu] at hc; simp at hc
    | some db_uid =>
      rw [hu] at hc
      simp only [] at hc
      cases hg : as_int (idx (Node.defined config) "dbgid") with
      | none => rw [hg] at hc; simp at hc
      | some db_gid =>
        rw [hg] at hc
        simp only [Prod.mk.injEq] at hc
        obtain ⟨hw, hv⟩ := hc
        obtain ⟨h1, h2, -⟩ := validate_fields env wc _ ws hv
        refine ⟨?_, ?_⟩
        · rw [← hw]; simp [drop_cap]
        · rw [h1, h2]; exact hu

/-- C10: with `raise_cap` and `lower_cap` as steps on the set of raised
capabilities, every run of `allocate` and every run of `release` on a
constructed object ends, whether it returns or exits, with no capability
raised. -/
theorem capabilities_lowered_on_exit (env : Env) (wc : whichclient) (_opt : Opt)
    (_duration : Int) (_filesystem : String) (maxextensions0 : Int) (w0 w : World)
    (ws : Workspace)
    (hc : Workspace.construct env wc _opt _duration _filesystem maxextensions0 w0
      = (w, Except.ok ws)) :
    (∀ (name : String) (extensionflag : Bool) (reminder : Int)
        (mailaddress user_option : String),
      (Workspace.allocate env ws name extensionflag reminder mailaddress user_option
        w).1.raised = []) ∧
    (∀ name : String, (Workspace.release env ws name w).1.raised = []) := by
  obtain ⟨h1, h2⟩ := construct_ok env wc _opt _duration _filesystem maxextensions0 w0 w ws hc
  exact ⟨fun name extensionflag reminder mailaddress user_option =>
      allocate_raised env ws name extensionflag reminder mailaddress user_option w h1,
    fun name => release_raised env ws name w h1 ws.db_uid h2⟩

theorem capabilities_lowered_on_exit_witness :
    (Workspace.allocate nochown_env sample_valid_ws "proj1" false 0 "" ""
      { sample_world 1 with log := [Event.raise_cap Cap.CAP_DAC_OVERRIDE,
          Event.raise_cap Cap.CAP_DAC_OVERRIDE,
          Event.lower_cap Cap.CAP_DAC_OVERRIDE 85] }).1.raised = [] ∧
    (Workspace.release nochown_env sample_valid_ws "proj1"
      { sample_world 1 with log := [Event.raise_cap Cap.CAP_DAC_OVERRIDE,
          Event.raise_cap Cap.CAP_DAC_OVERRIDE,
          Event.lower_cap Cap.CAP_DAC_OVERRIDE 85] }).1.raised = [] := by
  have h := capabilities_lowered_on_exit nochown_env whichclient.WS_Allocate
    { filesystem := some "scratch", duration := 30 } 30 "scratch" 0
    { sample_world 1 with raised := [Cap.CAP_CHOWN] }
    { sample_world 1 with log := [Event.raise_cap Cap.CAP_DAC_OVERRIDE,
        Event.raise_cap Cap.CAP_DAC_OVERRIDE,
        Event.lower_cap Cap.CAP_DAC_OVERRIDE 85] }
    sample_valid_ws rfl
  exact ⟨h.1 "proj1" false 0 "" "", h.2 "proj1"⟩

/-! ## `release` -/

theorem renamed_ok {α : Type} (env : Env) (m : List (String × α)) (s d : String)
    (h : rename_error env m s d = none) :
    ∃ a, m.lookup s = some a ∧ renamed env m s d = if s = d then m else put (del m s) d a := by
  unfold rename_error at h
  cases he : env.rename_errno s d with
  | some e => rw [he] at h; cases h
  | none =>
    rw [he] at h
    cases hl : m.lookup s with
    | none => rw [hl] at h; simp at h
    | some a =>
      refine ⟨a, rfl, ?_⟩
      simp [renamed, rename_error, he, hl]

theorem renamed_error {α : Type} (env : Env) (m : List (String × α)) (s d : String)
    (h : (rename_error env m s d).isSome = true) : renamed env m s d = m := by
  unfold renamed
  cases he : rename_error env m s d with
  | none => rw [he] at h; cases h
  | some e => rfl

theorem dbfilename_ne_target (database deleted owner name t : String) :
    database ++ "/" ++ owner ++ "-" ++ name
      ≠ database ++ "/" ++ deleted ++ "/" ++ owner ++ "-" ++ name ++ "-" ++ t := by
  intro h
  have hl := congrArg String.length h
  simp only [String.length_append] at hl
  have h1 : "/".length = 1 := rfl
  have h2 : "-".length = 1 := rfl
  omega

theorem release_eq (env : Env) (ws : Workspace) (name : String) (w : World)
    (database deleted : String) (file : DbFile) (dbuid : Int)
    (hdb : as_string (idx (idx (idx (Node.defined ws.config) "workspaces") ws.filesystem) "database")
      = some database)
    (hrec : w.db.lookup (database ++ "/" ++ ws.username ++ "-" ++ name) = some file)
    (hdel : as_string (idx (idx (idx (Node.defined ws.config) "workspaces") ws.filesystem) "deleted")
      = some deleted)
    (hu : as_int (idx (Node.defined ws.config) "dbuid") = some dbuid) :
    Workspace.release env ws name w =
      if (rename_error env w.db (database ++ "/" ++ ws.username ++ "-" ++ name)
          (env.parent_path (database ++ "/" ++ ws.username ++ "-" ++ name) ++ "/" ++ deleted
            ++ "/" ++ ws.username ++ "-" ++ name ++ "-" ++ toString (env.clock w.ticks))).isSome
      then
        (lower_cap Cap.CAP_DAC_OVERRIDE dbuid
          (rename_db env (database ++ "/" ++ ws.username ++ "-" ++ name)
            (env.parent_path (database ++ "/" ++ ws.username ++ "-" ++ name) ++ "/" ++ deleted
              ++ "/" ++ ws.username ++ "-" ++ name ++ "-" ++ toString (env.clock w.ticks))
            (raise_cap Cap.CAP_DAC_OVERRIDE (tick w))),
          Except.error (Fatal.exit (-1) "Error: database entry could not be deleted."))
      else if (rename_error env w.dirs file.record.wsdir
          (env.parent_path file.record.wsdir ++ "/" ++ deleted ++ "/" ++ ws.username ++ "-"
            ++ name ++ "-" ++ toString (env.clock w.ticks))).isSome
      then
        (lower_cap Cap.CAP_DAC_OVERRIDE dbuid
          (mv env file.record.wsdir
            (env.parent_path file.record.wsdir ++ "/" ++ deleted ++ "/" ++ ws.username ++ "-"
              ++ name ++ "-" ++ toString (env.clock w.ticks))
            (rename_dir env file.record.wsdir
              (env.parent_path file.record.wsdir ++ "/" ++ deleted ++ "/" ++ ws.username ++ "-"
                ++ name ++ "-" ++ toString (env.clock w.ticks))
              (raise_cap Cap.CAP_DAC_OVERRIDE (lower_cap Cap.CAP_DAC_OVERRIDE dbuid
                (rename_db env (database ++ "/" ++ ws.username ++ "-" ++ name)
                  (env.parent_path (database ++ "/" ++ ws.username ++ "-" ++ name) ++ "/"
                    ++ deleted ++ "/" ++ ws.username ++ "-" ++ name ++ "-"
                    ++ toString (env.clock w.ticks))
                  (raise_cap Cap.CAP_DAC_OVERRIDE (tick w))))))),
          if mv_result env w file.record.wsdir
              (env.parent_path file.record.wsdir ++ "/" ++ deleted ++ "/" ++ ws.username ++ "-"
                ++ name ++ "-" ++ toString (env.clock w.ticks)) ≠ 0
          then Except.error (Fatal.exit (-1) "Error: could not remove workspace!")
          else Except.ok ())
      else
        (lower_cap Cap.CAP_DAC_OVERRIDE dbuid
          (rename_dir env file.record.wsdir
            (env.parent_path file.record.wsdir ++ "/" ++ deleted ++ "/" ++ ws.username ++ "-"
              ++ name ++ "-" ++ toString (env.clock w.ticks))
            (raise_cap Cap.CAP_DAC_OVERRIDE (lower_cap Cap.CAP_DAC_OVERRIDE dbuid
              (rename_db env (database ++ "/" ++ ws.username ++ "-" ++ name)
                (env.parent_path (database ++ "/" ++ ws.username ++ "-" ++ name) ++ "/"
                  ++ deleted ++ "/" ++ ws.username ++ "-" ++ name ++ "-"
                  ++ toString (env.clock w.ticks))
                (raise_cap Cap.CAP_DAC_OVERRIDE (tick w)))))),
          Except.ok ()) := by
  unfold Workspace.release
  simp only [hdb, hrec, hdel, hu, now, raise_cap_db, tick_db, lower_cap_dirs, raise_cap_dirs,
    rename_db_dirs, tick_dirs]
  split
  · rfl
  · split
    · have hmv : ∀ (s d : String) (w1 : World), w1.dirs = w.dirs →
          mv_result env w1 s d = mv_result env w s d := by
        intro s d w1 h1
        unfold mv_result
        rw [h1]
      rw [hmv _ _ _ (by
        rw [rename_dir_dirs]
        exact renamed_error env _ _ _ (by assumption))]
      split <;> rfl
    · rfl

theorem release_no_dbuid (env : Env) (ws : Workspace) (name : String) (w : World)
    (database deleted : String) (file : DbFile)
    (hdb : as_string (idx (idx (idx (Node.defined ws.config) "workspaces") ws.filesystem) "database")
      = some database)
    (hrec : w.db.lookup (database ++ "/" ++ ws.username ++ "-" ++ name) = some file)
    (hdel : as_string (idx (idx (idx (Node.defined ws.config) "workspaces") ws.filesystem) "deleted")
      = some deleted)
    (hu : as_int (idx (Node.defined ws.config) "dbuid") = none) :
    (Workspace.release env ws name w).2 = Except.error Fatal.uncaught := by
  unfold Workspace.release
  simp only [hdb, hrec, hdel, hu]

/-- C7: a successful release of the workspace whose record is at
`<database>/<owner>-<name>` and whose recorded directory is `P` reads the
clock once, moves the record to `<database>/<deleted>/<owner>-<name>-<t>` and
the directory to `<parent(P)>/<deleted>/<owner>-<name>-<t>` with the same
timestamp `t`, and leaves neither the record path nor `P` occupied. Of
Boost's `parent_path` the statement uses that the parent of the record path
is `<database>`, and of `P` that it is not its own trash target. -/
theorem release_moves_to_trash (env : Env) (ws : Workspace) (name : String) (w : World)
    (database deleted : String) (file : DbFile)
    (hdb : as_string (idx (idx (idx (Node.defined ws.config) "workspaces") ws.filesystem) "database")
      = some database)
    (hrec : w.db.lookup (database ++ "/" ++ ws.username ++ "-" ++ name) = some file)
    (hdel : as_string (idx (idx (idx (Node.defined ws.config) "workspaces") ws.filesystem) "deleted")
      = some deleted)
    (hparent : env.parent_path (database ++ "/" ++ ws.username ++ "-" ++ name) = database)
    (hne : file.record.wsdir ≠ env.parent_path file.record.wsdir ++ "/" ++ deleted ++ "/"
      ++ ws.username ++ "-" ++ name ++ "-" ++ toString (env.clock w.ticks))
    (hok : (Workspace.release env ws name w).2 = Except.ok ()) :
    let t := toString (env.clock w.ticks)
    let r := Workspace.release env ws name w
    r.1.ticks = w.ticks + 1 ∧
    r.1.db.lookup (database ++ "/" ++ ws.username ++ "-" ++ name) = none ∧
    r.1.db.lookup (database ++ "/" ++ deleted ++ "/" ++ ws.username ++ "-" ++ name ++ "-" ++ t)
      = some file ∧
    r.1.dirs.lookup file.record.wsdir = none ∧
    ∃ d, w.dirs.lookup file.record.wsdir = some d ∧
      r.1.dirs.lookup (env.parent_path file.record.wsdir ++ "/" ++ deleted ++ "/"
        ++ ws.username ++ "-" ++ name ++ "-" ++ t) = some d := by
  cases hu : as_int (idx (Node.defined ws.config) "dbuid") with
  | none =>
    rw [release_no_dbuid env ws name w database deleted file hdb hrec hdel hu] at hok
    cases hok
  | some dbuid =>
    have heq := release_eq env ws name w database deleted file dbuid hdb hrec hdel hu
    rw [hparent] at heq
    have hdbne := dbfilename_ne_target database deleted ws.username name
      (toString (env.clock w.ticks))
    simp only []
    rw [heq] at hok ⊢
    cases hdbr : rename_error env w.db (database ++ "/" ++ ws.username ++ "-" ++ name)
        (database ++ "/" ++ deleted ++ "/" ++ ws.username ++ "-" ++ name ++ "-"
          ++ toString (env.clock w.ticks)) with
    | some e => rw [hdbr] at hok; simp at hok
    | none =>
      obtain ⟨a, ha, hren⟩ := renamed_ok env w.db _ _ hdbr
      rw [hrec] at ha
      cases ha
      rw [if_neg hdbne] at hren
      simp only [hdbr, Option.isSome_none, Bool.false_eq_true, if_false] at hok ⊢
      cases hdr : rename_error env w.dirs file.record.wsdir
          (env.parent_path file.record.wsdir ++ "/" ++ deleted ++ "/" ++ ws.username ++ "-"
            ++ name ++ "-" ++ toString (env.clock w.ticks)) with
      | none =>
        obtain ⟨d, hd, hrend⟩ := renamed_ok env w.dirs _ _ hdr
        rw [if_neg hne] at hrend
        simp only [hdr, Option.isSome_none, Bool.false_eq_true, if_false]
        refine ⟨by simp, ?_, ?_, ?_, d, hd, ?_⟩
        · simp [hren, lookup_put, lookup_del, hdbne]
        · simp [hren, lookup_put]
        · simp [hrend, lookup_put, lookup_del, hne]
        · simp [hrend, lookup_put]
      | some e =>
        simp only [hdr, Option.isSome_some, if_true] at hok ⊢
        have hrend : renamed env w.dirs file.record.wsdir
            (env.parent_path file.record.wsdir ++ "/" ++ deleted ++ "/" ++ ws.username ++ "-"
              ++ name ++ "-" ++ toString (env.clock w.ticks)) = w.dirs :=
          renamed_error env _ _ _ (by rw [hdr]; rfl)
        by_cases hmv : mv_result env w file.record.wsdir
            (env.parent_path file.record.wsdir ++ "/" ++ deleted ++ "/" ++ ws.username ++ "-"
              ++ name ++ "-" ++ toString (env.clock w.ticks)) = 0
        · unfold mv_result at hmv
          cases hd : w.dirs.lookup file.record.wsdir with
          | none => rw [hd] at hmv; simp at hmv
          | some d =>
            rw [hd] at hmv
            simp only [Option.isSome_some, if_true] at hmv
            refine ⟨by simp, ?_, ?_, ?_, d, rfl, ?_⟩
            · simp [hren, lookup_put, lookup_del, hdbne]
            · simp [hren, lookup_put]
            · simp [mv, hrend, hd, hmv, hne, lookup_put, lookup_del]
            · simp [mv, hrend, hd, hmv, hne, lookup_put]
        · rw [if_pos hmv] at hok
          cases hok

theorem release_moves_to_trash_witness :
    (Workspace.release sample_env sample_valid_ws "proj1" (sample_world 1)).1.db.lookup
        "/db/scratch/alice-proj1" = none ∧
    (Workspace.release sample_env sample_valid_ws "proj1" (sample_world 1)).1.db.lookup
        ("/db/scratch" ++ "/" ++ ".removed" ++ "/" ++ "alice" ++ "-" ++ "proj1" ++ "-"
          ++ toString (1700000000 : Int)) = some (sample_file 1) ∧
    (Workspace.release sample_env sample_valid_ws "proj1" (sample_world 1)).1.dirs.lookup
        "/data/b/alice-proj1" = none := by
  obtain ⟨-, h1, h2, h3, -⟩ := release_moves_to_trash sample_env sample_valid_ws "proj1"
    (sample_world 1) "/db/scratch" ".removed" (sample_file 1) (by decide) (by decide)
    (by decide) (by decide) (by decide) rfl
  exact ⟨h1, h2, h3⟩

/-- C8, as the code has it: once the record is moved, `release` attempts the
fallback `mv` whenever the rename of the directory fails, whatever the cause,
and ends fatally exactly when the fallback fails too. -/
theorem release_fallback_on_any_failure (env : Env) (ws : Workspace) (name : String)
    (w : World) (database deleted : String) (file : DbFile) (dbuid : Int)
    (hdb : as_string (idx (idx (idx (Node.defined ws.config) "workspaces") ws.filesystem) "database")
      = some database)
    (hrec : w.db.lookup (database ++ "/" ++ ws.username ++ "-" ++ name) = some file)
    (hdel : as_string (idx (idx (idx (Node.defined ws.config) "workspaces") ws.filesystem) "deleted")
      = some deleted)
    (hu : as_int (idx (Node.defined ws.config) "dbuid") = some dbuid)
    (hdbok : rename_error env w.db (database ++ "/" ++ ws.username ++ "-" ++ name)
      (env.parent_path (database ++ "/" ++ ws.username ++ "-" ++ name) ++ "/" ++ deleted
        ++ "/" ++ ws.username ++ "-" ++ name ++ "-" ++ toString (env.clock w.ticks)) = none) :
    let wsdir := file.record.wsdir
    let wstargetname := env.parent_path wsdir ++ "/" ++ deleted ++ "/" ++ ws.username ++ "-"
      ++ name ++ "-" ++ toString (env.clock w.ticks)
    let r := Workspace.release env ws name w
    ((events_since w r.1).any moved = true ↔
      (rename_error env w.dirs wsdir wstargetname).isSome = true) ∧
    (Event.mv wsdir wstargetname (mv_result env w wsdir wstargetname) ∈ events_since w r.1 ↔
      (rename_error env w.dirs wsdir wstargetname).isSome = true) ∧
    (r.2 = Except.error (Fatal.exit (-1) "Error: could not remove workspace!") ↔
      ((rename_error env w.dirs wsdir wstargetname).isSome = true ∧
        mv_result env w wsdir wstargetname ≠ 0)) ∧
    (r.2 = Except.ok () ↔
      ((rename_error env w.dirs wsdir wstargetname).isSome = false ∨
        mv_result env w wsdir wstargetname = 0)) := by
  have heq := release_eq env ws name w database deleted file dbuid hdb hrec hdel hu
  simp only []
  rw [heq]
  simp only [hdbok, Option.isSome_none, Bool.false_eq_true, if_false]
  cases hdr : (rename_error env w.dirs file.record.wsdir
      (env.parent_path file.record.wsdir ++ "/" ++ deleted ++ "/" ++ ws.username ++ "-"
        ++ name ++ "-" ++ toString (env.clock w.ticks))).isSome with
  | false =>
    simp only [Bool.false_eq_true, if_false]
    refine ⟨?_, ?_, ?_, ?_⟩
    · simp [events_since, moved]
    · simp [events_since]
    · simp
    · simp
  | true =>
    have hrend : renamed env w.dirs file.record.wsdir
        (env.parent_path file.record.wsdir ++ "/" ++ deleted ++ "/" ++ ws.username ++ "-"
          ++ name ++ "-" ++ toString (env.clock w.ticks)) = w.dirs :=
      renamed_error env _ _ _ hdr
    simp only [if_true]
    refine ⟨?_, ?_, ?_, ?_⟩
    · simp [events_since, moved]
    · simp only [lower_cap_log, mv_log, rename_dir_log, raise_cap_log, rename_db_log, tick_log,
        events_since, List.append_assoc, List.drop_left, mv_result, rename_dir_dirs,
        raise_cap_dirs, lower_cap_dirs, rename_db_dirs, tick_dirs]
      simp only [hrend]
      simp
    · by_cases h0 : mv_result env w file.record.wsdir
          (env.parent_path file.record.wsdir ++ "/" ++ deleted ++ "/" ++ ws.username ++ "-"
            ++ name ++ "-" ++ toString (env.clock w.ticks)) = 0
      · simp [h0]
      · simp [h0]
    · by_cases h0 : mv_result env w file.record.wsdir
          (env.parent_path file.record.wsdir ++ "/" ++ deleted ++ "/" ++ ws.username ++ "-"
            ++ name ++ "-" ++ toString (env.clock w.ticks)) = 0
      · simp [h0]
      · simp [h0]

theorem release_fallback_on_any_failure_witness :
    (events_since (sample_world 1)
        (Workspace.release eacces_env sample_valid_ws "proj1" (sample_world 1)).1).any moved
      = true ↔
    (rename_error eacces_env (sample_world 1).dirs "/data/b/alice-proj1"
      (dirname "/data/b/alice-proj1" ++ "/" ++ ".removed" ++ "/" ++ "alice" ++ "-" ++ "proj1"
        ++ "-" ++ toString (1700000000 : Int))).isSome = true :=
  (release_fallback_on_any_failure eacces_env sample_valid_ws "proj1" (sample_world 1)
    "/db/scratch" ".removed" (sample_file 1) 85 (by decide) (by decide) (by decide)
    (by decide) (by decide)).1

/-- C8 fails as stated: the rename of the directory of `alice` fails with
`EACCES`, a cause other than a cross-device move, and `release` still
attempts the fallback `mv`, which succeeds, and returns. -/
theorem release_fallback_counterexample :
    Event.rename "/data/b/alice-proj1" "/data/b/.removed/alice-proj1-1700000000"
        (some Errno.EACCES)
      ∈ events_since (sample_world 1)
        (Workspace.release eacces_env sample_valid_ws "proj1" (sample_world 1)).1 ∧
    Errno.EACCES ≠ Errno.EXDEV ∧
    Event.mv "/data/b/alice-proj1" "/data/b/.removed/alice-proj1-1700000000" 0
      ∈ events_since (sample_world 1)
        (Workspace.release eacces_env sample_valid_ws "proj1" (sample_world 1)).1 ∧
    (Workspace.release eacces_env sample_valid_ws "proj1" (sample_world 1)).2
      = Except.ok () := by
  refine ⟨by decide, by decide, by decide, rfl⟩

end HpcWorkspace
